import Mathlib

/-!
# Verification of the BicycleParameters core

A shallow embedding of `bicycleparameters/parameter_sets.py` (and, where the
relevant module is not part of the sources, definitions modelled from the
specification) together with theorems settling the specification claims.

Python floating point values are modelled as exact rationals (`ℚ`) for the
executable parts of the pipeline, and as real numbers (`ℝ`) for the
eigen-decomposition routine, which involves square roots and `atan2`.
Parameter dictionaries are modelled as association lists from strings to
values, looked up at their first occurrence; `dict.update` is modelled by
in-place replacement of the bound key.
-/

namespace BicycleParameters

/-- A Python runtime value as far as `ParameterSet._check_parameters` cares:
it distinguishes floats (modelled by an exact rational payload) from
non-float values such as Python ints (`isinstance(x, float)` is false for
`int` and `bool`). -/
inductive PyVal where
  | float (x : ℚ)
  | int (n : ℤ)
  | bool (b : Bool)
deriving DecidableEq, Repr

/-- `isinstance(v, float)` for our value model. -/
def PyVal.isFloat : PyVal → Bool
  | .float _ => true
  | _ => false

/-- Rendering of a value used in the second `ValueError` message
(`'{} is not a valid value for parameter {}'.format(parameters[k], k)`). -/
def PyVal.render : PyVal → String
  | .float x => toString x
  | .int n => toString n
  | .bool b => toString b

/-- A Python dictionary with string keys, modelled as an association list;
lookup returns the first binding of the key. -/
abbrev PyDict (α : Type) := List (String × α)

/-- Dictionary lookup (`parameters[k]` / `k in parameters`). -/
def lookupPar {α : Type} : PyDict α → String → Option α
  | [], _ => none
  | (k, v) :: rest, s => if k = s then some v else lookupPar rest s

/-- `d[k] = v` on a dictionary: replaces the first binding of `k`, or appends
a new binding when `k` is absent. -/
def setPar {α : Type} : PyDict α → String → α → PyDict α
  | [], k, v => [(k, v)]
  | (k', v') :: rest, k, v =>
      if k' = k then (k, v) :: rest else (k', v') :: setPar rest k v

/-- `d.update(ext)`: sequentially writes every binding of `ext` into `d`. -/
def updatePars {α : Type} (d ext : PyDict α) : PyDict α :=
  ext.foldl (fun acc kv => setPar acc kv.1 kv.2) d

/-- The error message of `_check_parameters` when a required key is absent:
`'{} is missing from the provided parameter dictionary.'.format(k)`. -/
def missingMsg (k : String) : String :=
  k ++ " is missing from the provided parameter dictionary."

/-- The error message of `_check_parameters` when a present value is not a
float: `'{} is not a valid value for parameter {}'.format(parameters[k], k)`. -/
def invalidMsg (v : PyVal) (k : String) : String :=
  v.render ++ " is not a valid value for parameter " ++ k

/-- `ParameterSet._check_parameters`: iterates over the schema keys in
order; raises (returns `Except.error`) at the first key that is absent from
`parameters` or whose value is not a float. -/
def checkParameters (schema : List String) (parameters : PyDict PyVal) :
    Except String Unit :=
  match schema with
  | [] => .ok ()
  | k :: rest =>
      match lookupPar parameters k with
      | none => .error (missingMsg k)
      | some v =>
          if v.isFloat then checkParameters rest parameters
          else .error (invalidMsg v k)

/-- The keys of `Meijaard2007ParameterSet.par_strings`, in source order. -/
def meijaard2007ParStrings : List String :=
  ["IBxx", "IBxz", "IByy", "IBzz", "IFxx", "IFyy", "IHxx", "IHxz", "IHyy",
   "IHzz", "IRxx", "IRyy", "c", "g", "lam", "mB", "mF", "mH", "mR", "rF",
   "rR", "v", "w", "xB", "xH", "zB", "zH"]

/-- The keys of `Moore2019ParameterSet.par_strings`, in source order. -/
def moore2019ParStrings : List String :=
  ["alphaD", "alphaH", "alphaP", "c", "g", "kDaa", "kDbb", "kDyy", "kFaa",
   "kFyy", "kHaa", "kHbb", "kHyy", "kPaa", "kPbb", "kPyy", "kRaa", "kRyy",
   "lP", "lam", "mD", "mF", "mH", "mP", "mR", "rF", "rR", "v", "w", "wP",
   "xD", "xH", "xP", "zD", "zH", "zP"]

/-- `Meijaard2007ParameterSet.body_labels`. -/
def meijaard2007BodyLabels : List String := ["B", "F", "H", "R"]

/-- The constructed state of a `Meijaard2007ParameterSet` instance: the
stored parameter dictionary and the `includes_rider` flag (the generated
body colors are plotting bookkeeping, outside the core). -/
structure Meijaard2007Set (α : Type) where
  parameters : PyDict α
  includes_rider : Bool
deriving DecidableEq

/-- `Meijaard2007ParameterSet.__init__`: validates eagerly via
`_check_parameters` against `par_strings`, then stores the dictionary and
the flag. -/
def mkMeijaard2007Set (parameters : PyDict PyVal) (includes_rider : Bool) :
    Except String (Meijaard2007Set PyVal) :=
  (checkParameters meijaard2007ParStrings parameters).map
    (fun _ => ⟨parameters, includes_rider⟩)

/-- `Moore2019ParameterSet.__init__` similarly. -/
def mkMoore2019Set (parameters : PyDict PyVal) :
    Except String (PyDict PyVal) :=
  (checkParameters moore2019ParStrings parameters).map (fun _ => parameters)

/-- `k` is bound to a float in `d` (`isinstance(parameters[k], float)` after
a successful `k in parameters` test). -/
def floatAt (d : PyDict PyVal) (k : String) : Bool :=
  ((lookupPar d k).map PyVal.isFloat).getD false

theorem floatAt_eq_some {d : PyDict PyVal} {k : String} {v : PyVal}
    (hk : lookupPar d k = some v) : floatAt d k = v.isFloat := by
  simp [floatAt, hk]

theorem floatAt_eq_none {d : PyDict PyVal} {k : String}
    (hk : lookupPar d k = none) : floatAt d k = false := by
  simp [floatAt, hk]

/-- A key offends at dictionary `d` when it is absent or bound to a
non-float. -/
def offends (d : PyDict PyVal) (k : String) : Prop :=
  floatAt d k = false

instance (d : PyDict PyVal) (k : String) : Decidable (offends d k) := by
  unfold offends; infer_instance

/-- `Except.isOk` for our result values. -/
def isOkE {ε β : Type} : Except ε β → Bool
  | .ok _ => true
  | .error _ => false

/-- Helper: `checkParameters` succeeds iff every schema key is bound to a
float. -/
theorem checkParameters_ok_iff (schema : List String) (d : PyDict PyVal) :
    checkParameters schema d = .ok () ↔ ∀ k ∈ schema, floatAt d k = true := by
  induction schema with
  | nil => simp [checkParameters]
  | cons k rest ih =>
      simp only [checkParameters, List.mem_cons]
      cases hk : lookupPar d k with
      | none =>
          constructor
          · intro h; cases h
          · intro h
            have hfa := h k (Or.inl rfl)
            rw [floatAt_eq_none hk] at hfa; cases hfa
      | some v =>
          dsimp only
          cases hv : v.isFloat with
          | true =>
              rw [if_pos rfl, ih]
              constructor
              · intro h k' hk'
                cases hk' with
                | inl h' => subst h'; rw [floatAt_eq_some hk]; exact hv
                | inr h' => exact h k' h'
              · intro h k' hk'; exact h k' (Or.inr hk')
          | false =>
              rw [if_neg Bool.false_ne_true]
              constructor
              · intro h; cases h
              · intro h
                have hfa := h k (Or.inl rfl)
                rw [floatAt_eq_some hk, hv] at hfa; cases hfa

/-- Helper: when `checkParameters` fails, its message names the first
offending schema key. -/
theorem checkParameters_error (schema : List String) (d : PyDict PyVal)
    (msg : String) (h : checkParameters schema d = .error msg) :
    ∃ pre k post, schema = pre ++ k :: post ∧
      (∀ k' ∈ pre, ¬ offends d k') ∧ offends d k ∧
      (msg = missingMsg k ∨ ∃ v, lookupPar d k = some v ∧ msg = invalidMsg v k) := by
  induction schema with
  | nil => simp [checkParameters] at h
  | cons k rest ih =>
      rw [checkParameters] at h
      cases hk : lookupPar d k with
      | none =>
          simp only [hk] at h
          refine ⟨[], k, rest, rfl, by simp,
            by rw [offends, floatAt_eq_none hk], Or.inl ?_⟩
          cases h; rfl
      | some v =>
          simp only [hk] at h
          cases hv : v.isFloat with
          | true =>
              simp only [hv, if_true] at h
              obtain ⟨pre, k', post, hs, hpre, hoff, hmsg⟩ := ih h
              refine ⟨k :: pre, k', post, by rw [hs]; rfl, ?_, hoff, hmsg⟩
              intro k'' hk''
              cases hk'' with
              | head =>
                  intro hoffk
                  rw [offends, floatAt_eq_some hk, hv] at hoffk
                  cases hoffk
              | tail _ htail => exact hpre k'' htail
          | false =>
              simp only [hv, Bool.false_eq_true, if_false] at h
              refine ⟨[], k, rest, rfl, by simp,
                by rw [offends, floatAt_eq_some hk, hv],
                Or.inr ⟨v, hk, ?_⟩⟩
              cases h; rfl

/-- Helper: extra keys outside the schema never change the outcome of
validation. -/
theorem checkParameters_extra (schema : List String) (d extra : PyDict PyVal)
    (hextra : ∀ kv ∈ extra, kv.1 ∉ schema) :
    checkParameters schema (d ++ extra) = checkParameters schema d := by
  induction schema with
  | nil => rfl
  | cons k rest ih =>
      have hlook : lookupPar (d ++ extra) k = lookupPar d k := by
        clear ih
        induction d with
        | nil =>
            simp only [List.nil_append]
            induction extra with
            | nil => rfl
            | cons kv tl ihe =>
                have h1 : kv.1 ≠ k := by
                  intro hkk
                  exact hextra kv (List.mem_cons_self _ _) (hkk ▸ List.mem_cons_self _ _)
                cases kv with
                | mk k' v' =>
                    simp only [lookupPar, if_neg h1]
                    exact ihe (fun kv hkv => hextra kv (List.mem_cons_of_mem _ hkv))
        | cons kv tl ihd =>
            cases kv with
            | mk k' v' =>
                simp only [List.cons_append, lookupPar]
                by_cases hkk : k' = k
                · simp [hkk]
                · simp only [if_neg hkk]
                  exact ihd
      simp only [checkParameters, hlook]
      cases lookupPar d k with
      | none => rfl
      | some v =>
          simp only []
          cases v.isFloat with
          | true =>
              simp only [if_true]
              exact ih (fun kv hkv hmem => hextra kv hkv (List.mem_cons_of_mem _ hmem))
          | false => simp

/-! ## NumPy array shapes

Query and model results are NumPy arrays of various shapes; we model them
as ragged nested lists tagged by a constructor, with a decidable shape
predicate, so that claims about result shapes (`(3,1)` vs `(3,)`,
`(2,2)` vs `(n,2,2)`, …) are genuine statements. -/

/-- A NumPy ndarray value: either a scalar entry or a list of subarrays. -/
inductive NDArr (α : Type) where
  | num (a : α)
  | vec (xs : List (NDArr α))

/-- `a` has shape `s` (e.g. `[3, 1]` for a (3,1) column): recursion on the
shape, so every level must have the announced length and all slices the
same remaining shape. -/
def NDArr.hasShapeB {α : Type} : List Nat → NDArr α → Bool
  | [], .num _ => true
  | d :: ds, .vec xs => xs.length == d && xs.all (hasShapeB ds)
  | _, _ => false

/-- Build a (r, c) array from an entry function. -/
def mkMat {α : Type} (r c : Nat) (f : Fin r → Fin c → α) : NDArr α :=
  .vec (List.ofFn (fun i => .vec (List.ofFn (fun j => .num (f i j)))))

/-- Build a (n,) array from an entry function. -/
def mkVec {α : Type} (n : Nat) (f : Fin n → α) : NDArr α :=
  .vec (List.ofFn (fun i => .num (f i)))

theorem hasShapeB_mkVec {α : Type} (n : Nat) (f : Fin n → α) :
    (mkVec n f).hasShapeB [n] = true := by
  simp only [mkVec, NDArr.hasShapeB, List.all_eq_true, Bool.and_eq_true,
    beq_iff_eq, List.length_ofFn, eq_self_iff_true, true_and]
  intro x hx
  rw [List.mem_ofFn] at hx
  obtain ⟨i, rfl⟩ := hx
  rfl

theorem hasShapeB_mkMat {α : Type} (r c : Nat) (f : Fin r → Fin c → α) :
    (mkMat r c f).hasShapeB [r, c] = true := by
  simp only [mkMat, NDArr.hasShapeB, List.all_eq_true, Bool.and_eq_true,
    beq_iff_eq, List.length_ofFn, eq_self_iff_true, true_and]
  intro x hx
  rw [List.mem_ofFn] at hx
  obtain ⟨i, rfl⟩ := hx
  simp only [NDArr.hasShapeB, List.all_eq_true, Bool.and_eq_true,
    beq_iff_eq, List.length_ofFn, eq_self_iff_true, true_and]
  intro y hy
  rw [List.mem_ofFn] at hy
  obtain ⟨j, rfl⟩ := hy
  rfl

/-- Shape check lifted through an optional result: vacuously true when the
call failed. -/
def optShapeB {α : Type} (o : Option (NDArr α)) (s : List Nat) : Bool :=
  match o with
  | none => true
  | some a => a.hasShapeB s

/-! ## Numeric query layer of `Meijaard2007ParameterSet`

Valid parameter dictionaries hold floats only, so the numeric layer is
embedded over a general field of values (`ℚ` in the executable theorems,
`ℝ` where square roots and `atan2` appear). Key errors (Python `KeyError`)
are modelled by `Option`. -/

section NumericLayer

variable {F : Type} [Field F]

/-- `Meijaard2007ParameterSet._calc_derived_params`: the derived parameters
that are needed but not specified by the user, computed fresh from the
stored dictionary. The binding order follows the source. -/
def calcDerivedParams (p : PyDict F) : Option (PyDict F) := do
  let iFxx ← lookupPar p "IFxx"
  let iRxx ← lookupPar p "IRxx"
  let w ← lookupPar p "w"
  let rF ← lookupPar p "rF"
  let rR ← lookupPar p "rR"
  return [("IFxz", 0), ("IFzz", iFxx), ("IRxz", 0), ("IRzz", iRxx),
          ("xF", w), ("xR", 0), ("yB", 0), ("yF", 0), ("yH", 0), ("yR", 0),
          ("zF", -rF), ("zR", -rR)]

/-- The body of `form_mass_center_vector` up to `.squeeze()`: the (x, y, z)
coordinates of the body's mass center, read from
`self.parameters.copy()` updated with the derived parameters. -/
def squeezedMassCenter (p : PyDict F) (body : String) : Option (F × F × F) := do
  let ext ← calcDerivedParams p
  let pm := updatePars p ext
  let x ← lookupPar pm ("x" ++ body)
  let y ← lookupPar pm ("y" ++ body)
  let z ← lookupPar pm ("z" ++ body)
  return (x, y, z)

/-- `Meijaard2007ParameterSet.form_mass_center_vector`: returns the (3, 1)
column `np.array([[x], [y], [z]])`. -/
def formMassCenterVector (p : PyDict F) (body : String) : Option (NDArr F) :=
  (squeezedMassCenter p body).map
    (fun xyz => .vec [.vec [.num xyz.1], .vec [.num xyz.2.1], .vec [.num xyz.2.2]])

/-- Modelled from the spec: `total_com` lives in `bicycleparameters/com.py`,
which is not among the sources; only its caller `mass_center_of` is.
Spec §2 (CenterOfMassAggregator) and §4.2: the mass-weighted average
`com = Σ(mᵢ·pᵢ) / Σ(mᵢ)` of the given coordinates, failing on an empty
body collection; returns the pair (total mass, com). -/
def total_com (coordinates : List (F × F × F)) (masses : List F) :
    Option (F × (F × F × F)) :=
  if coordinates.isEmpty then none
  else
    let mt := masses.sum
    let sx := (List.zipWith (fun c m => m * c.1) coordinates masses).sum
    let sy := (List.zipWith (fun (c : F × F × F) m => m * c.2.1) coordinates masses).sum
    let sz := (List.zipWith (fun (c : F × F × F) m => m * c.2.2) coordinates masses).sum
    some (mt, (sx / mt, sy / mt, sz / mt))

/-- `Meijaard2007ParameterSet.mass_center_of`: with a single body it
returns `form_mass_center_vector(bodies[0])` unchanged; otherwise it
collects the masses (from the stored dictionary) and the squeezed mass
center coordinates of each body in order and mass-averages them through
`total_com`, returning a flat (3,) array. -/
def massCenterOf (p : PyDict F) (bodies : List String) : Option (NDArr F) :=
  if bodies.length = 1 then formMassCenterVector p bodies.headI
  else do
    let masses ← bodies.mapM (fun b => lookupPar p ("m" ++ b))
    let coordinates ← bodies.mapM (fun b => squeezedMassCenter p b)
    let mc ← total_com coordinates masses
    return .vec [.num mc.2.1, .num mc.2.2.1, .num mc.2.2.2]

/-- `Meijaard2007ParameterSet.form_inertia_tensor`: assembles the symmetric
3×3 tensor `[[Ixx, 0, Ixz], [0, Iyy, 0], [Ixz, 0, Izz]]` of a body from the
stored dictionary updated with the derived parameters. -/
def formInertiaTensor (p : PyDict F) (body : String) :
    Option (Matrix (Fin 3) (Fin 3) F) := do
  let ext ← calcDerivedParams p
  let pm := updatePars p ext
  let ixx ← lookupPar pm ("I" ++ body ++ "xx")
  let ixz ← lookupPar pm ("I" ++ body ++ "xz")
  let iyy ← lookupPar pm ("I" ++ body ++ "yy")
  let izz ← lookupPar pm ("I" ++ body ++ "zz")
  return !![ixx, 0, ixz; 0, iyy, 0; ixz, 0, izz]

end NumericLayer

/-! ## Linearized dynamics model

`bicycleparameters/models.py` (class `Meijaard2007Model`) is not among the
sources; only its tests are. The model below is therefore modelled from
the specification (§4.6, §6, §7). The closed-form Carvallo–Whipple entry
expressions are not given by the spec, so the per-sample canonical-matrix
computation is abstracted as a kernel argument `f`, and the 4×4
eigen-solver as a kernel argument `e`; every theorem about the sweep and
batching machinery holds for all kernels. -/

/-- Modelled from the spec (§7, error taxonomy): the errors a
canonical/state-space/eigen call can raise. `sweepConflict` corresponds to
more than one vector-valued override, `keyMissing` to a `KeyError` on a
parameter lookup, `singularMassMatrix` to a numeric error from inverting a
singular `M`. -/
inductive ModelError where
  | sweepConflict
  | keyMissing (k : String)
  | singularMassMatrix
deriving DecidableEq, Repr

/-- Modelled from the spec (§6, model boundary): an override value is
either a scalar float or a one-dimensional array of floats. -/
inductive OverrideValue (α : Type) where
  | scalar (x : α)
  | vector (xs : List α)

/-- A configuration of named overrides. -/
abbrev Overrides (α : Type) := List (String × OverrideValue α)

/-- The scalar-valued overrides, in order. -/
def scalarOverrides {α : Type} (ov : Overrides α) : PyDict α :=
  ov.filterMap (fun kv =>
    match kv.2 with
    | .scalar x => some (kv.1, x)
    | .vector _ => none)

/-- The vector-valued overrides, in order. -/
def vectorOverrides {α : Type} (ov : Overrides α) : List (String × List α) :=
  ov.filterMap (fun kv =>
    match kv.2 with
    | .scalar _ => none
    | .vector xs => some (kv.1, xs))

/-- Modelled from the spec (§4.6): the sweep machinery shared by the three
model entry points. The vector-override count is validated before any
per-sample work: two or more vector-valued overrides fail with the
sweep-conflict error. Otherwise the scalar overrides are merged into a
transient copy of the wrapped parameters; with no vector override the
per-sample computation `g` runs once, and with exactly one vector override
`(name, xs)` it runs once per sample, in the order of `xs`, with `name`
bound to that sample's value. -/
def sweepEval {α β : Type} (g : PyDict α → Except ModelError β)
    (p : PyDict α) (ov : Overrides α) : Except ModelError (β ⊕ List β) :=
  if 2 ≤ (vectorOverrides ov).length then .error .sweepConflict
  else
    match vectorOverrides ov with
    | [] => (g (updatePars p (scalarOverrides ov))).map .inl
    | (name, xs) :: _ =>
        (xs.mapM (fun x =>
          g (setPar (updatePars p (scalarOverrides ov)) name x))).map .inr

/-- The four canonical matrices of one sample, as 2×2 entry functions. -/
structure CanonicalMatrices (α : Type) where
  M : Fin 2 → Fin 2 → α
  C1 : Fin 2 → Fin 2 → α
  K0 : Fin 2 → Fin 2 → α
  K2 : Fin 2 → Fin 2 → α

/-- Modelled from the spec (§4.6, `formReducedCanonicalMatrices`): merges
overrides through `sweepEval` and evaluates the per-sample kernel `f`;
returns four (2,2) arrays, or four (n,2,2) arrays batched in the order of
the swept vector. -/
def formReducedCanonicalMatrices {α : Type}
    (f : PyDict α → CanonicalMatrices α) (p : PyDict α) (ov : Overrides α) :
    Except ModelError (NDArr α × NDArr α × NDArr α × NDArr α) :=
  (sweepEval (fun q => .ok (f q)) p ov).map
    (fun r =>
      match r with
      | .inl c => (mkMat 2 2 c.M, mkMat 2 2 c.C1, mkMat 2 2 c.K0, mkMat 2 2 c.K2)
      | .inr cs => (.vec (cs.map (fun c => mkMat 2 2 c.M)),
                    .vec (cs.map (fun c => mkMat 2 2 c.C1)),
                    .vec (cs.map (fun c => mkMat 2 2 c.K0)),
                    .vec (cs.map (fun c => mkMat 2 2 c.K2))))

/-- Modelled from the spec (§4.6, `formStateSpaceMatrices` block layout):
one sample's (A, B) from the canonical matrices of the merged parameters
`q`. Reads the forward speed `v` from `q`; fails on a singular `M`
(2×2 inverse by the adjugate formula). `A`'s top blocks embed the rates,
its bottom-left block is `-M⁻¹(K0 + v²·K2)` and its bottom-right block is
`-M⁻¹(v·C1)`; `B` stacks two zero rows over `M⁻¹`. -/
def stateSpacePerSample {α : Type} [Field α] [DecidableEq α]
    (f : PyDict α → CanonicalMatrices α) (q : PyDict α) :
    Except ModelError ((Fin 4 → Fin 4 → α) × (Fin 4 → Fin 2 → α)) :=
  match lookupPar q "v" with
  | none => .error (.keyMissing "v")
  | some v =>
      let c := f q
      let det := c.M 0 0 * c.M 1 1 - c.M 0 1 * c.M 1 0
      if det = 0 then .error .singularMassMatrix
      else
        let mInv : Fin 2 → Fin 2 → α :=
          ![![c.M 1 1 / det, -c.M 0 1 / det], ![-c.M 1 0 / det, c.M 0 0 / det]]
        let kk : Fin 2 → Fin 2 → α := fun i j => c.K0 i j + v ^ 2 * c.K2 i j
        let cc : Fin 2 → Fin 2 → α := fun i j => v * c.C1 i j
        let bl : Fin 2 → Fin 2 → α :=
          fun i j => -(mInv i 0 * kk 0 j + mInv i 1 * kk 1 j)
        let br : Fin 2 → Fin 2 → α :=
          fun i j => -(mInv i 0 * cc 0 j + mInv i 1 * cc 1 j)
        .ok (![![0, 0, 1, 0], ![0, 0, 0, 1],
               ![bl 0 0, bl 0 1, br 0 0, br 0 1],
               ![bl 1 0, bl 1 1, br 1 0, br 1 1]],
             ![![0, 0], ![0, 0],
               ![mInv 0 0, mInv 0 1], ![mInv 1 0, mInv 1 1]])

/-- Modelled from the spec (§4.6, `formStateSpaceMatrices`): the state-space
realization under the same single-vector-override and batching rules,
with shapes (4,4)/(n,4,4) and (4,2)/(n,4,2). -/
def formStateSpaceMatrices {α : Type} [Field α] [DecidableEq α]
    (f : PyDict α → CanonicalMatrices α) (p : PyDict α) (ov : Overrides α) :
    Except ModelError (NDArr α × NDArr α) :=
  (sweepEval (fun q => (stateSpacePerSample f q).map
      (fun ab => (mkMat 4 4 ab.1, mkMat 4 2 ab.2))) p ov).map
    (fun r =>
      match r with
      | .inl ab => ab
      | .inr bs => (.vec (bs.map Prod.fst), .vec (bs.map Prod.snd)))

/-- Modelled from the spec (§4.6, `calcEigen`): per sample, the eigenvalues
and right eigenvectors of that sample's `A`, as returned by the abstract
solver kernel `e` (entries are complex, modelled as pairs (re, im));
shapes (4,)/(n,4) and (4,4)/(n,4,4) under the same single-vector rule. -/
def calcEigen {α : Type} [Field α] [DecidableEq α]
    (f : PyDict α → CanonicalMatrices α)
    (e : (Fin 4 → Fin 4 → α) → (Fin 4 → α × α) × (Fin 4 → Fin 4 → α × α))
    (p : PyDict α) (ov : Overrides α) :
    Except ModelError (NDArr (α × α) × NDArr (α × α)) :=
  (sweepEval (fun q => (stateSpacePerSample f q).map
      (fun ab => ((mkVec 4 (e ab.1).1, mkMat 4 4 (e ab.1).2)))) p ov).map
    (fun r =>
      match r with
      | .inl ab => ab
      | .inr bs => (.vec (bs.map Prod.fst), .vec (bs.map Prod.snd)))

/-! ### Generic lemmas about `Except`/`Option` traversals -/

theorem except_map_ne_error {ε β γ : Type} (f : β → γ) (e : Except ε β)
    (err : ε) (h : e ≠ .error err) : e.map f ≠ .error err := by
  cases e with
  | ok x => intro hc; cases hc
  | error e' =>
      intro hc
      injection hc with h'
      exact h (h' ▸ rfl)

theorem except_map_eq_ok {ε β γ : Type} (f : β → γ) (e : Except ε β) (y : γ)
    (h : e.map f = .ok y) : ∃ x, e = .ok x ∧ y = f x := by
  cases e with
  | ok x =>
      refine ⟨x, rfl, ?_⟩
      injection h with h'
      exact h'.symm
  | error e' => cases h

theorem mapM_except_ne_error {ε α β : Type} (g : α → Except ε β)
    (xs : List α) (err : ε) (h : ∀ x, g x ≠ .error err) :
    xs.mapM g ≠ .error err := by
  induction xs with
  | nil => rw [List.mapM_nil]; intro hc; cases hc
  | cons x xs ih =>
      rw [List.mapM_cons]
      cases hx : g x with
      | error e' =>
          show (Except.error e' : Except ε (List β)) ≠ .error err
          intro hc; injection hc with h'; exact h x (h' ▸ hx)
      | ok y =>
          show Except.bind (xs.mapM g) (fun ys => pure (y :: ys)) ≠ .error err
          cases hxs : xs.mapM g with
          | error e'' =>
              show (Except.error e'' : Except ε (List β)) ≠ .error err
              intro hc; injection hc with h'; exact ih (h' ▸ hxs)
          | ok ys =>
              show (Except.ok (y :: ys) : Except ε (List β)) ≠ .error err
              intro hc; cases hc

theorem mapM_except_ok_map {ε α β : Type} (h : α → β) (xs : List α) :
    xs.mapM (fun x => (Except.ok (h x) : Except ε β)) = .ok (xs.map h) := by
  induction xs with
  | nil => rfl
  | cons x xs ih => rw [List.mapM_cons, ih]; rfl

theorem mapM_except_ok_parts {ε α β : Type} (g : α → Except ε β)
    (xs : List α) (ys : List β) (h : xs.mapM g = .ok ys) :
    ys.length = xs.length ∧ ∀ y ∈ ys, ∃ x, g x = .ok y := by
  induction xs generalizing ys with
  | nil =>
      rw [List.mapM_nil] at h
      injection h with h'
      subst h'
      exact ⟨rfl, by simp⟩
  | cons x xs ih =>
      rw [List.mapM_cons] at h
      cases hx : g x with
      | error e' =>
          rw [hx] at h
          replace h : (Except.error e' : Except ε (List β)) = .ok ys := h
          cases h
      | ok y =>
          rw [hx] at h
          replace h : Except.bind (xs.mapM g) (fun ys => pure (y :: ys)) = .ok ys := h
          cases hxs : xs.mapM g with
          | error e'' =>
              rw [hxs] at h
              replace h : (Except.error e'' : Except ε (List β)) = .ok ys := h
              cases h
          | ok ys' =>
              rw [hxs] at h
              replace h : (Except.ok (y :: ys') : Except ε (List β)) = .ok ys := h
              injection h with h'
              subst h'
              obtain ⟨hlen, hmem⟩ := ih ys' hxs
              refine ⟨by simp [hlen], ?_⟩
              intro z hz
              cases hz with
              | head => exact ⟨x, hx⟩
              | tail _ htail => exact hmem z htail

theorem mapM_option_some_length {α β : Type} (g : α → Option β)
    (xs : List α) (ys : List β) (h : xs.mapM g = some ys) :
    ys.length = xs.length := by
  induction xs generalizing ys with
  | nil =>
      rw [List.mapM_nil] at h
      injection h with h'
      subst h'; rfl
  | cons x xs ih =>
      rw [List.mapM_cons] at h
      cases hx : g x with
      | none =>
          rw [hx] at h
          replace h : (none : Option (List β)) = some ys := h
          cases h
      | some y =>
          rw [hx] at h
          replace h : Option.bind (xs.mapM g) (fun ys => pure (y :: ys)) = some ys := h
          cases hxs : xs.mapM g with
          | none =>
              rw [hxs] at h
              replace h : (none : Option (List β)) = some ys := h
              cases h
          | some ys' =>
              rw [hxs] at h
              replace h : (some (y :: ys') : Option (List β)) = some ys := h
              injection h with h'
              subst h'
              simp [ih ys' hxs]

theorem mapM_option_none_of_mem {α β : Type} (g : α → Option β)
    (xs : List α) (x : α) (hx : x ∈ xs) (h : g x = none) :
    xs.mapM g = none := by
  induction xs with
  | nil => cases hx
  | cons z zs ih =>
      rw [List.mapM_cons]
      cases hx with
      | head =>
          rw [h]
          rfl
      | tail _ htail =>
          cases hz : g z with
          | none => rfl
          | some y =>
              show Option.bind (zs.mapM g) (fun ys => pure (y :: ys)) = none
              rw [ih htail]
              rfl

/-! ### Lemmas about the sweep machinery -/

theorem sweepEval_conflict {α β : Type} (g : PyDict α → Except ModelError β)
    (p : PyDict α) (ov : Overrides α)
    (h : 2 ≤ (vectorOverrides ov).length) :
    sweepEval g p ov = .error .sweepConflict := by
  rw [sweepEval, if_pos h]

theorem sweepEval_ne_conflict {α β : Type} (g : PyDict α → Except ModelError β)
    (p : PyDict α) (ov : Overrides α)
    (hg : ∀ q, g q ≠ .error .sweepConflict)
    (h : (vectorOverrides ov).length ≤ 1) :
    sweepEval g p ov ≠ .error .sweepConflict := by
  rw [sweepEval, if_neg (by omega)]
  cases hv : vectorOverrides ov with
  | nil => exact except_map_ne_error _ _ _ (hg _)
  | cons nx rest =>
      obtain ⟨name, xs⟩ := nx
      exact except_map_ne_error _ _ _
        (mapM_except_ne_error _ _ _ (fun x => hg _))

theorem stateSpacePerSample_ne_conflict {α : Type} [Field α] [DecidableEq α]
    (f : PyDict α → CanonicalMatrices α) (q : PyDict α) :
    stateSpacePerSample f q ≠ .error .sweepConflict := by
  rw [stateSpacePerSample]
  cases lookupPar q "v" with
  | none => intro hc; injection hc with h'; cases h'
  | some v =>
      dsimp only
      by_cases hd : ((f q).M 0 0 * (f q).M 1 1 - (f q).M 0 1 * (f q).M 1 0) = 0
      · rw [if_pos hd]
        intro hc; injection hc with h'; cases h'
      · rw [if_neg hd]
        intro hc; cases hc

/-! ## Principal-axis decomposition (`_planar_principal_radii_of_gyration`)

The source eigen-decomposes the symmetric 2×2 XZ sub-tensor with
`np.linalg.eig` and sorts the eigenpairs ascending with `argsort`. For a
symmetric 2×2 matrix `[[a, b], [b, c]]` the sorted eigenvalues are the
closed forms `eigMin`/`eigMax` below (proved to be exactly the roots of
the characteristic polynomial, in ascending order). The solver's choice
of unit eigenvector for the larger eigenvalue is not determined by its
contract (either of `±v` may be returned), so it enters the embedding as
an input, constrained in the theorems to be a unit eigenvector of the
larger eigenvalue. -/

/-- The smaller eigenvalue of `[[a, b], [b, c]]`. -/
noncomputable def eigMin (a b c : ℝ) : ℝ :=
  ((a + c) - Real.sqrt ((a - c) ^ 2 + 4 * b ^ 2)) / 2

/-- The larger eigenvalue of `[[a, b], [b, c]]`. -/
noncomputable def eigMax (a b c : ℝ) : ℝ :=
  ((a + c) + Real.sqrt ((a - c) ^ 2 + 4 * b ^ 2)) / 2

/-- `np.arctan2 y x`, modelled as the argument of the complex number
`x + y·i`. -/
noncomputable def atan2 (y x : ℝ) : ℝ := Complex.arg ⟨x, y⟩

/-- `np.delete(np.delete(T, 1, axis=1), 1, axis=0)` on a 3×3 array:
removes the y row and column. -/
def deleteYRowCol {F : Type} (T : Matrix (Fin 3) (Fin 3) F) :
    Matrix (Fin 2) (Fin 2) F :=
  !![T 0 0, T 0 2; T 2 0, T 2 2]

/-- The tensor-level core of `_planar_principal_radii_of_gyration`: from a
body's 3×3 inertia tensor `T`, its mass and the solver's unit eigenvector
`v` for the larger eigenvalue of the XZ sub-tensor, the tuple
`(kmax, kmin, kyy, angle_to_max)`, with the angle computed as
`arctan2(-evec_max_z, evec_max_x)` (the source negates the z component of
the eigenvector). `T 1 1` is the looked-up `Iyy` of the body. -/
noncomputable def principalDecomp (T : Matrix (Fin 3) (Fin 3) ℝ) (m : ℝ)
    (v : ℝ × ℝ) : ℝ × ℝ × ℝ × ℝ :=
  let a := deleteYRowCol T
  (Real.sqrt (eigMax (a 0 0) (a 0 1) (a 1 1) / m),
   Real.sqrt (eigMin (a 0 0) (a 0 1) (a 1 1) / m),
   Real.sqrt (T 1 1 / m),
   atan2 (-v.2) v.1)

/-- `Meijaard2007ParameterSet._planar_principal_radii_of_gyration`: merges
the derived parameters, forms the body's inertia tensor, drops the y
row/column, eigen-decomposes, and returns `(kmax, kmin, kyy, angle)`. -/
noncomputable def planarPrincipalRadiiOfGyration (p : PyDict ℝ)
    (body : String) (v : ℝ × ℝ) : Option (ℝ × ℝ × ℝ × ℝ) := do
  let ext ← calcDerivedParams p
  let pm := updatePars p ext
  let T ← formInertiaTensor p body
  let a := deleteYRowCol T
  let angleToMax := atan2 (-v.2) v.1
  let m ← lookupPar pm ("m" ++ body)
  let iyy ← lookupPar pm ("I" ++ body ++ "yy")
  return (Real.sqrt (eigMax (a 0 0) (a 0 1) (a 1 1) / m),
          Real.sqrt (eigMin (a 0 0) (a 0 1) (a 1 1) / m),
          Real.sqrt (iyy / m),
          angleToMax)

/-- Modelled from the spec: the planar tensor reconstruction of
`convert_principal_to_benchmark` (`bicycleparameters/conversions.py`, not
among the sources), §4.4: `Ixx = m·(kaa²·cos²θ + kbb²·sin²θ)`. -/
noncomputable def reconstructIxx (m kaa kbb θ : ℝ) : ℝ :=
  m * (kaa ^ 2 * Real.cos θ ^ 2 + kbb ^ 2 * Real.sin θ ^ 2)

/-- Modelled from the spec, §4.4: `Izz = m·(kaa²·sin²θ + kbb²·cos²θ)`. -/
noncomputable def reconstructIzz (m kaa kbb θ : ℝ) : ℝ :=
  m * (kaa ^ 2 * Real.sin θ ^ 2 + kbb ^ 2 * Real.cos θ ^ 2)

/-- Modelled from the spec, §4.4: `Ixz = m·(kbb² − kaa²)·sinθ·cosθ`. -/
noncomputable def reconstructIxz (m kaa kbb θ : ℝ) : ℝ :=
  m * (kbb ^ 2 - kaa ^ 2) * Real.sin θ * Real.cos θ

/-- Modelled from the spec, §4.4: `Iyy = m·kyy²`. -/
noncomputable def reconstructIyy (m kyy : ℝ) : ℝ := m * kyy ^ 2

theorem eigMin_add_eigMax (a b c : ℝ) : eigMin a b c + eigMax a b c = a + c := by
  unfold eigMin eigMax; ring

theorem eigMin_mul_eigMax (a b c : ℝ) :
    eigMin a b c * eigMax a b c = a * c - b ^ 2 := by
  have hs : Real.sqrt ((a - c) ^ 2 + 4 * b ^ 2) ^ 2 = (a - c) ^ 2 + 4 * b ^ 2 :=
    Real.sq_sqrt (by positivity)
  unfold eigMin eigMax
  linear_combination (-1 / 4 : ℝ) * hs

theorem eigMin_le_eigMax (a b c : ℝ) : eigMin a b c ≤ eigMax a b c := by
  have hs : 0 ≤ Real.sqrt ((a - c) ^ 2 + 4 * b ^ 2) := Real.sqrt_nonneg _
  unfold eigMin eigMax
  linarith

/-- `eigMin` and `eigMax` are exactly the eigenvalues of `[[a,b],[b,c]]`:
its characteristic polynomial factors through them. -/
theorem charPoly_factors (a b c t : ℝ) :
    (!![a, b; b, c] - t • (1 : Matrix (Fin 2) (Fin 2) ℝ)).det =
      (eigMin a b c - t) * (eigMax a b c - t) := by
  have hs : Real.sqrt ((a - c) ^ 2 + 4 * b ^ 2) ^ 2 = (a - c) ^ 2 + 4 * b ^ 2 :=
    Real.sq_sqrt (by positivity)
  rw [Matrix.det_fin_two]
  simp only [Matrix.sub_apply, Matrix.smul_apply, Matrix.one_apply,
    Matrix.cons_val', Matrix.cons_val_zero, Matrix.cons_val_one,
    Matrix.head_cons, Matrix.empty_val', Matrix.cons_val_fin_one,
    Matrix.head_fin_const, smul_eq_mul]
  unfold eigMin eigMax
  norm_num
  linear_combination (1 / 4 : ℝ) * hs

/-- Positive definiteness of the XZ sub-tensor puts both eigenvalues
strictly above zero. -/
theorem eigMin_pos (a b c : ℝ) (ha : 0 < a) (hd : b ^ 2 < a * c) :
    0 < eigMin a b c := by
  have hc : 0 < c := by nlinarith [sq_nonneg b]
  have hR : (0:ℝ) ≤ (a - c) ^ 2 + 4 * b ^ 2 := by positivity
  have hs : Real.sqrt ((a - c) ^ 2 + 4 * b ^ 2) ^ 2 = (a - c) ^ 2 + 4 * b ^ 2 :=
    Real.sq_sqrt hR
  have hnn : 0 ≤ Real.sqrt ((a - c) ^ 2 + 4 * b ^ 2) := Real.sqrt_nonneg _
  have hlt : Real.sqrt ((a - c) ^ 2 + 4 * b ^ 2) < a + c := by
    nlinarith [hs, hnn]
  unfold eigMin
  linarith

theorem eigMax_pos (a b c : ℝ) (ha : 0 < a) (hd : b ^ 2 < a * c) :
    0 < eigMax a b c :=
  lt_of_lt_of_le (eigMin_pos a b c ha hd) (eigMin_le_eigMax a b c)

/-- `cos (atan2 y x) = x / √(x² + y²)` away from the origin. -/
theorem cos_atan2 (y x : ℝ) (h : ¬(x = 0 ∧ y = 0)) :
    Real.cos (atan2 y x) = x / Real.sqrt (x ^ 2 + y ^ 2) := by
  have hz : (⟨x, y⟩ : ℂ) ≠ 0 := by
    intro hzero
    rw [Complex.ext_iff] at hzero
    exact h ⟨hzero.1, hzero.2⟩
  rw [atan2, Complex.cos_arg hz, Complex.abs_apply, Complex.normSq_mk]
  ring_nf

/-- `sin (atan2 y x) = y / √(x² + y²)`. -/
theorem sin_atan2 (y x : ℝ) :
    Real.sin (atan2 y x) = y / Real.sqrt (x ^ 2 + y ^ 2) := by
  rw [atan2, Complex.sin_arg, Complex.abs_apply, Complex.normSq_mk]
  ring_nf

theorem deleteY_planar {F : Type} [Field F] (ixx ixz iyy izz : F) :
    deleteYRowCol !![ixx, 0, ixz; 0, iyy, 0; ixz, 0, izz] =
      !![ixx, ixz; ixz, izz] := by
  ext i j
  fin_cases i <;> fin_cases j <;>
    simp [deleteYRowCol, Matrix.cons_val_two, Matrix.tail_cons]

theorem principalDecomp_planar (ixx ixz iyy izz m vx vz : ℝ) :
    principalDecomp !![ixx, 0, ixz; 0, iyy, 0; ixz, 0, izz] m (vx, vz) =
      (Real.sqrt (eigMax ixx ixz izz / m), Real.sqrt (eigMin ixx ixz izz / m),
       Real.sqrt (iyy / m), atan2 (-vz) vx) := by
  rw [principalDecomp, deleteY_planar]
  simp [Matrix.cons_val_two, Matrix.tail_cons, atan2]

/-- Destructuring a successful `form_inertia_tensor` call: the derived
merge succeeded, the four component lookups succeeded, and the tensor is
the symmetric planar assembly of the looked-up components. -/
theorem formInertiaTensor_some {F : Type} [Field F] (p : PyDict F)
    (body : String) (T : Matrix (Fin 3) (Fin 3) F)
    (h : formInertiaTensor p body = some T) :
    ∃ ext ixx ixz iyy izz,
      calcDerivedParams p = some ext ∧
      lookupPar (updatePars p ext) ("I" ++ body ++ "xx") = some ixx ∧
      lookupPar (updatePars p ext) ("I" ++ body ++ "xz") = some ixz ∧
      lookupPar (updatePars p ext) ("I" ++ body ++ "yy") = some iyy ∧
      lookupPar (updatePars p ext) ("I" ++ body ++ "zz") = some izz ∧
      T = !![ixx, 0, ixz; 0, iyy, 0; ixz, 0, izz] := by
  rw [formInertiaTensor] at h
  cases hext : calcDerivedParams p with
  | none =>
      rw [hext] at h
      replace h : (none : Option (Matrix (Fin 3) (Fin 3) F)) = some T := h
      cases h
  | some ext =>
      rw [hext] at h
      refine ⟨ext, ?_⟩
      replace h : Option.bind (lookupPar (updatePars p ext) ("I" ++ body ++ "xx"))
        (fun ixx => Option.bind (lookupPar (updatePars p ext) ("I" ++ body ++ "xz"))
          (fun ixz => Option.bind (lookupPar (updatePars p ext) ("I" ++ body ++ "yy"))
            (fun iyy => Option.bind (lookupPar (updatePars p ext) ("I" ++ body ++ "zz"))
              (fun izz => some !![ixx, 0, ixz; 0, iyy, 0; ixz, 0, izz])))) =
          some T := h
      cases h1 : lookupPar (updatePars p ext) ("I" ++ body ++ "xx") with
      | none =>
          rw [h1] at h
          replace h : (none : Option (Matrix (Fin 3) (Fin 3) F)) = some T := h
          cases h
      | some ixx =>
          rw [h1] at h
          replace h : Option.bind (lookupPar (updatePars p ext) ("I" ++ body ++ "xz"))
            (fun ixz => Option.bind (lookupPar (updatePars p ext) ("I" ++ body ++ "yy"))
              (fun iyy => Option.bind (lookupPar (updatePars p ext) ("I" ++ body ++ "zz"))
                (fun izz => some !![ixx, 0, ixz; 0, iyy, 0; ixz, 0, izz]))) =
              some T := h
          refine ⟨ixx, ?_⟩
          cases h2 : lookupPar (updatePars p ext) ("I" ++ body ++ "xz") with
          | none =>
              rw [h2] at h
              replace h : (none : Option (Matrix (Fin 3) (Fin 3) F)) = some T := h
              cases h
          | some ixz =>
              rw [h2] at h
              replace h : Option.bind (lookupPar (updatePars p ext) ("I" ++ body ++ "yy"))
                (fun iyy => Option.bind (lookupPar (updatePars p ext) ("I" ++ body ++ "zz"))
                  (fun izz => some !![ixx, 0, ixz; 0, iyy, 0; ixz, 0, izz])) =
                  some T := h
              refine ⟨ixz, ?_⟩
              cases h3 : lookupPar (updatePars p ext) ("I" ++ body ++ "yy") with
              | none =>
                  rw [h3] at h
                  replace h : (none : Option (Matrix (Fin 3) (Fin 3) F)) = some T := h
                  cases h
              | some iyy =>
                  rw [h3] at h
                  replace h : Option.bind (lookupPar (updatePars p ext) ("I" ++ body ++ "zz"))
                    (fun izz => some !![ixx, 0, ixz; 0, iyy, 0; ixz, 0, izz]) =
                      some T := h
                  refine ⟨iyy, ?_⟩
                  cases h4 : lookupPar (updatePars p ext) ("I" ++ body ++ "zz") with
                  | none =>
                      rw [h4] at h
                      replace h : (none : Option (Matrix (Fin 3) (Fin 3) F)) = some T := h
                      cases h
                  | some izz =>
                      rw [h4] at h
                      replace h :
                        (some (!![ixx, 0, ixz; 0, iyy, 0; ixz, 0, izz]) :
                          Option (Matrix (Fin 3) (Fin 3) F)) = some T := h
                      injection h with h'
                      exact ⟨izz, rfl, rfl, rfl, rfl, rfl, h'.symm⟩

/-! ## Shape predicates over model results -/

/-- All four canonical matrices of a successful result have shape `sh`
(an errored call constrains nothing). -/
def shape4Ok {α : Type} (sh : List Nat)
    (r : Except ModelError (NDArr α × NDArr α × NDArr α × NDArr α)) : Bool :=
  match r with
  | .error _ => true
  | .ok (m, c1, k0, k2) =>
      m.hasShapeB sh && c1.hasShapeB sh && k0.hasShapeB sh && k2.hasShapeB sh

/-- Both components of a successful pair result have the announced shapes. -/
def shape2Ok {α : Type} (shA shB : List Nat)
    (r : Except ModelError (NDArr α × NDArr α)) : Bool :=
  match r with
  | .error _ => true
  | .ok (a, b) => a.hasShapeB shA && b.hasShapeB shB

theorem hasShapeB_vec_map {α β : Type} (xs : List β) (f : β → NDArr α)
    (ds : List Nat) (hf : ∀ x ∈ xs, (f x).hasShapeB ds = true) :
    (NDArr.vec (xs.map f)).hasShapeB (xs.length :: ds) = true := by
  simp only [NDArr.hasShapeB, Bool.and_eq_true, beq_iff_eq, List.length_map,
    List.all_eq_true, eq_self_iff_true, true_and]
  intro y hy
  rw [List.mem_map] at hy
  obtain ⟨x, hx, rfl⟩ := hy
  exact hf x hx

/-! ## Instance-level query calls (state discipline)

The Python query methods read `self.parameters` (copying it before merging
the derived parameters) and assign no attribute; the embedding records this
state discipline by passing the instance state through each call
explicitly, paired with the result. -/

/-- `form_mass_center_vector` as a call on the instance state. -/
def Meijaard2007Set.formMassCenterVectorCall (s : Meijaard2007Set ℚ)
    (body : String) : Meijaard2007Set ℚ × Option (NDArr ℚ) :=
  (s, formMassCenterVector s.parameters body)

/-- `mass_center_of` as a call on the instance state. -/
def Meijaard2007Set.massCenterOfCall (s : Meijaard2007Set ℚ)
    (bodies : List String) : Meijaard2007Set ℚ × Option (NDArr ℚ) :=
  (s, massCenterOf s.parameters bodies)

/-- `form_inertia_tensor` as a call on the instance state. -/
def Meijaard2007Set.formInertiaTensorCall (s : Meijaard2007Set ℚ)
    (body : String) : Meijaard2007Set ℚ × Option (Matrix (Fin 3) (Fin 3) ℚ) :=
  (s, formInertiaTensor s.parameters body)

/-- `_calc_derived_params` as a call on the instance state. -/
def Meijaard2007Set.calcDerivedParamsCall (s : Meijaard2007Set ℚ) :
    Meijaard2007Set ℚ × Option (PyDict ℚ) :=
  (s, calcDerivedParams s.parameters)

/-- `_planar_principal_radii_of_gyration` as a call on the instance state. -/
noncomputable def Meijaard2007Set.planarPrincipalRadiiCall
    (s : Meijaard2007Set ℝ) (body : String) (v : ℝ × ℝ) :
    Meijaard2007Set ℝ × Option (ℝ × ℝ × ℝ × ℝ) :=
  (s, planarPrincipalRadiiOfGyration s.parameters body v)

theorem sweepEval_scalar {α β : Type} (g : PyDict α → Except ModelError β)
    (p : PyDict α) (ov : Overrides α) (hv : vectorOverrides ov = []) :
    sweepEval g p ov = (g (updatePars p (scalarOverrides ov))).map .inl := by
  rw [sweepEval, if_neg (by rw [hv]; simp), hv]

theorem sweepEval_vector {α β : Type} (g : PyDict α → Except ModelError β)
    (p : PyDict α) (ov : Overrides α) (name : String) (xs : List α)
    (hv : vectorOverrides ov = [(name, xs)]) :
    sweepEval g p ov = (xs.mapM (fun x =>
      g (setPar (updatePars p (scalarOverrides ov)) name x))).map .inr := by
  rw [sweepEval, if_neg (by rw [hv]; simp), hv]

theorem formReduced_scalar (f : PyDict ℚ → CanonicalMatrices ℚ)
    (p : PyDict ℚ) (ov : Overrides ℚ) (hv : vectorOverrides ov = []) :
    formReducedCanonicalMatrices f p ov =
      .ok (mkMat 2 2 (f (updatePars p (scalarOverrides ov))).M,
           mkMat 2 2 (f (updatePars p (scalarOverrides ov))).C1,
           mkMat 2 2 (f (updatePars p (scalarOverrides ov))).K0,
           mkMat 2 2 (f (updatePars p (scalarOverrides ov))).K2) := by
  rw [formReducedCanonicalMatrices, sweepEval_scalar _ _ _ hv]
  rfl

theorem formReduced_vector (f : PyDict ℚ → CanonicalMatrices ℚ)
    (p : PyDict ℚ) (ov : Overrides ℚ) (name : String) (xs : List ℚ)
    (hv : vectorOverrides ov = [(name, xs)]) :
    formReducedCanonicalMatrices f p ov =
      .ok (.vec ((xs.map (fun x =>
              f (setPar (updatePars p (scalarOverrides ov)) name x))).map
            (fun c => mkMat 2 2 c.M)),
           .vec ((xs.map (fun x =>
              f (setPar (updatePars p (scalarOverrides ov)) name x))).map
            (fun c => mkMat 2 2 c.C1)),
           .vec ((xs.map (fun x =>
              f (setPar (updatePars p (scalarOverrides ov)) name x))).map
            (fun c => mkMat 2 2 c.K0)),
           .vec ((xs.map (fun x =>
              f (setPar (updatePars p (scalarOverrides ov)) name x))).map
            (fun c => mkMat 2 2 c.K2))) := by
  rw [formReducedCanonicalMatrices, sweepEval_vector _ _ _ _ _ hv,
    mapM_except_ok_map]
  rfl

/-! ## Concrete example dictionaries -/

/-- The benchmark dictionary of `tests/test_models.py` as rationals (the
float `np.pi/10` entry for `lam` is replaced by a nearby rational, which no
claim depends on). -/
def meijaard2007ExampleParameters : PyDict ℚ :=
  [("IBxx", 9.2), ("IBxz", 2.4), ("IByy", 11.0), ("IBzz", 2.8),
   ("IFxx", 0.1405), ("IFyy", 0.28), ("IHxx", 0.05892), ("IHxz", -0.00756),
   ("IHyy", 0.06), ("IHzz", 0.00708), ("IRxx", 0.0603), ("IRyy", 0.12),
   ("c", 0.08), ("g", 9.81), ("lam", 0.3141592653589793), ("mB", 85.0),
   ("mF", 3.0), ("mH", 4.0), ("mR", 2.0), ("rF", 0.35), ("rR", 0.3),
   ("v", 5.0), ("w", 1.02), ("xB", 0.3), ("xH", 0.9), ("zB", -0.9),
   ("zH", -0.7)]

/-- The same dictionary with every value wrapped as a Python float. -/
def meijaard2007ExamplePyDict : PyDict PyVal :=
  meijaard2007ExampleParameters.map (fun kv => (kv.1, PyVal.float kv.2))

/-- A dictionary of 36 floats for the Moore2019 schema (values arbitrary). -/
def moore2019ExamplePyDict : PyDict PyVal :=
  moore2019ParStrings.map (fun k => (k, PyVal.float 1.0))

/-- A small valid-by-schema dictionary realizing the spec's center-of-mass
example: unit masses at (0, 0, 0) and (2, 0, 0). -/
def comExampleParameters : PyDict ℚ :=
  [("IFxx", 0.1), ("IRxx", 0.1), ("w", 1.0), ("rF", 0.35), ("rR", 0.3),
   ("mB", 1.0), ("xB", 0.0), ("zB", 0.0), ("mH", 1.0), ("xH", 2.0),
   ("zH", 0.0)]

/-- Every schema key is bound in the (rational-valued, hence all-floats)
dictionary `p`. -/
def meijaardKeysPresent (p : PyDict ℚ) : Bool :=
  meijaard2007ParStrings.all (fun k => (lookupPar p k).isSome)

/-- The benchmark example dictionary extended with extra (tolerated) keys
describing an undeclared body label `X`. -/
def extraLabelParameters : PyDict ℚ :=
  meijaard2007ExampleParameters ++
    [("mX", 1.0), ("xX", 0.5), ("yX", 0.0), ("zX", 0.25)]

/-- A small real-valued dictionary for the decomposition theorems: frame
body `B` with inertia tensor diag(2, 3, 1) and unit mass (integer literals
so that concrete evaluations are definitional). -/
def principalExampleParameters : PyDict ℝ :=
  [("IFxx", 1), ("IRxx", 1), ("w", 1), ("rF", 1), ("rR", 1),
   ("IBxx", 2), ("IBxz", 0), ("IByy", 3), ("IBzz", 1), ("mB", 1)]

/-- A concrete per-sample canonical kernel (identity mass matrix) used to
instantiate model theorems. -/
def kernelExample : PyDict ℚ → CanonicalMatrices ℚ :=
  fun _ => ⟨fun i j => if i = j then 1 else 0,
            fun _ _ => 0, fun _ _ => 0, fun _ _ => 0⟩

/-- A concrete eigen-solver kernel used to instantiate model theorems. -/
def eigenSolverExample :
    (Fin 4 → Fin 4 → ℚ) → (Fin 4 → ℚ × ℚ) × (Fin 4 → Fin 4 → ℚ × ℚ) :=
  fun _ => (fun _ => (0, 0), fun _ _ => (0, 0))

/-- A minimal wrapped parameter dictionary for the model theorems. -/
def modelExampleParameters : PyDict ℚ := [("v", 5.0)]

/-- Two vector-valued overrides (a sweep conflict). -/
def conflictOverridesExample : Overrides ℚ :=
  [("w", .vector [0.5, 1.0, 1.5]), ("v", .vector [1.0, 2.0, 3.0])]

/-- Exactly one vector-valued override, of length 3, plus a scalar one. -/
def singleVectorOverridesExample : Overrides ℚ :=
  [("g", .scalar 6.0), ("w", .vector [0.5, 1.0, 1.5])]

/-- Scalar-only overrides. -/
def scalarOverridesExample : Overrides ℚ := [("g", .scalar 6.0)]

/-! ## Claims -/

/-- **C2**: validation succeeds iff every key of the schema table is bound
to a float (at construction too); on failure the error names the first
offending key in schema order; an integer value fails; keys outside the
schema never cause failure. -/
theorem c2_validation_contract :
    (∀ (schema : List String) (d : PyDict PyVal),
        checkParameters schema d = .ok () ↔
          ∀ k ∈ schema, floatAt d k = true) ∧
    (∀ (schema : List String) (d : PyDict PyVal) (msg : String),
        checkParameters schema d = .error msg →
          ∃ pre k post, schema = pre ++ k :: post ∧
            (∀ k' ∈ pre, ¬ offends d k') ∧ offends d k ∧
            (msg = missingMsg k ∨
              ∃ v, lookupPar d k = some v ∧ msg = invalidMsg v k)) ∧
    (∀ (schema : List String) (d extra : PyDict PyVal),
        (∀ kv ∈ extra, kv.1 ∉ schema) →
          checkParameters schema (d ++ extra) = checkParameters schema d) ∧
    (∀ (schema : List String) (d : PyDict PyVal) (k : String) (n : ℤ),
        k ∈ schema → lookupPar d k = some (.int n) →
          checkParameters schema d ≠ .ok ()) ∧
    (∀ (d : PyDict PyVal) (flag : Bool),
        isOkE (mkMeijaard2007Set d flag) = true ↔
          ∀ k ∈ meijaard2007ParStrings, floatAt d k = true) := by
  refine ⟨checkParameters_ok_iff, checkParameters_error, checkParameters_extra,
    ?_, ?_⟩
  · intro schema d k n hk hlook hok
    have hall := (checkParameters_ok_iff schema d).mp hok
    have hfa := hall k hk
    rw [floatAt_eq_some hlook] at hfa
    cases hfa
  · intro d flag
    have h := checkParameters_ok_iff meijaard2007ParStrings d
    rw [mkMeijaard2007Set]
    cases hc : checkParameters meijaard2007ParStrings d with
    | ok u =>
        cases u
        exact ⟨fun _ => h.mp hc, fun _ => rfl⟩
    | error e =>
        constructor
        · intro hx; cases hx
        · intro hall
          have hok := h.mpr hall
          rw [hc] at hok
          cases hok

/-- Witness for C2 at concrete inputs: the full benchmark dictionary
validates; a dictionary with an `int` at `"b"` fails naming `"b"`; extra
keys leave the outcome unchanged; construction succeeds exactly on
all-float dictionaries. -/
theorem c2_validation_contract_witness :
    (checkParameters meijaard2007ParStrings meijaard2007ExamplePyDict = .ok ()) ∧
    (checkParameters ["a", "b"] [("a", .float 1), ("b", .int 2)] =
      .error (invalidMsg (.int 2) "b")) ∧
    (∃ pre k post, ["a", "b"] = pre ++ k :: post ∧
      (∀ k' ∈ pre, ¬ offends [("a", PyVal.float 1), ("b", PyVal.int 2)] k') ∧
      offends [("a", PyVal.float 1), ("b", PyVal.int 2)] k ∧
      (invalidMsg (.int 2) "b" = missingMsg k ∨
        ∃ v, lookupPar [("a", PyVal.float 1), ("b", PyVal.int 2)] k = some v ∧
          invalidMsg (.int 2) "b" = invalidMsg v k)) ∧
    (checkParameters ["a", "b"]
        ([("a", PyVal.float 1), ("b", PyVal.float 2)] ++ [("zz", PyVal.int 7)]) =
      checkParameters ["a", "b"] [("a", PyVal.float 1), ("b", PyVal.float 2)]) ∧
    (checkParameters ["a", "b"] [("a", PyVal.float 1), ("b", PyVal.int 2)] ≠
      .ok ()) ∧
    (isOkE (mkMeijaard2007Set meijaard2007ExamplePyDict true) = true ↔
      ∀ k ∈ meijaard2007ParStrings, floatAt meijaard2007ExamplePyDict k = true) := by
  refine ⟨rfl, rfl, ?_, ?_, ?_, ?_⟩
  · exact c2_validation_contract.2.1 ["a", "b"] _ _ rfl
  · exact c2_validation_contract.2.2.1 ["a", "b"] _ _ (by decide)
  · exact c2_validation_contract.2.2.2.1 ["a", "b"] _ "b" 2 (by decide) (by decide)
  · exact c2_validation_contract.2.2.2.2 meijaard2007ExamplePyDict true

/-- **C3** (counterexample): the Benchmark schema does not have 26 required
keys, nor the Principal schema 33 — the tables have 27 and 36 keys. -/
theorem c3_schema_sizes_counterexample :
    ¬(meijaard2007ParStrings.length = 26 ∧ moore2019ParStrings.length = 33) := by
  decide

/-- **C3** (amended): the Benchmark construction boundary requires exactly
the 27 schema floats (plus the boolean includes-rider flag), and the
Principal boundary exactly 36 floats; construction succeeds whenever all
these keys are floats, so no other required keys exist. -/
theorem c3_schema_sizes_amended :
    meijaard2007ParStrings.length = 27 ∧ moore2019ParStrings.length = 36 ∧
    (∀ (d : PyDict PyVal) (flag : Bool),
        (∀ k ∈ meijaard2007ParStrings, floatAt d k = true) →
        mkMeijaard2007Set d flag = .ok ⟨d, flag⟩) ∧
    (∀ d : PyDict PyVal,
        (∀ k ∈ moore2019ParStrings, floatAt d k = true) →
        mkMoore2019Set d = .ok d) := by
  refine ⟨by decide, by decide, ?_, ?_⟩
  · intro d flag hall
    have hok := (checkParameters_ok_iff meijaard2007ParStrings d).mpr hall
    rw [mkMeijaard2007Set, hok]
    rfl
  · intro d hall
    have hok := (checkParameters_ok_iff moore2019ParStrings d).mpr hall
    rw [mkMoore2019Set, hok]
    rfl

/-- Witness for C3 (amended) at the 27-key benchmark dictionary and a
36-key Moore2019 dictionary. -/
theorem c3_schema_sizes_amended_witness :
    (∀ k ∈ meijaard2007ParStrings, floatAt meijaard2007ExamplePyDict k = true) ∧
    (∀ k ∈ moore2019ParStrings, floatAt moore2019ExamplePyDict k = true) ∧
    mkMeijaard2007Set meijaard2007ExamplePyDict true =
      .ok ⟨meijaard2007ExamplePyDict, true⟩ ∧
    mkMoore2019Set moore2019ExamplePyDict = .ok moore2019ExamplePyDict := by
  refine ⟨by decide, by decide, ?_, ?_⟩
  · exact c3_schema_sizes_amended.2.2.1 _ true (by decide)
  · exact c3_schema_sizes_amended.2.2.2 _ (by decide)

/-- **C7**: for a dictionary binding the wheel inertias, wheelbase and
wheel radii, the derived-parameter computation returns exactly the
dictionary with zero wheel cross-inertias, wheel z-inertias equal to the
x-inertias, `xF = w`, `xR = 0`, all four y-offsets zero, and
`zF = -rF`, `zR = -rR`. -/
theorem c7_derived_parameters (p : PyDict ℚ) (iFxx iRxx w rF rR : ℚ)
    (h1 : lookupPar p "IFxx" = some iFxx)
    (h2 : lookupPar p "IRxx" = some iRxx)
    (h3 : lookupPar p "w" = some w)
    (h4 : lookupPar p "rF" = some rF)
    (h5 : lookupPar p "rR" = some rR) :
    calcDerivedParams p = some
      [("IFxz", 0), ("IFzz", iFxx), ("IRxz", 0), ("IRzz", iRxx),
       ("xF", w), ("xR", 0), ("yB", 0), ("yF", 0), ("yH", 0), ("yR", 0),
       ("zF", -rF), ("zR", -rR)] := by
  simp [calcDerivedParams, h1, h2, h3, h4, h5]

/-- Witness for C7 at the benchmark example dictionary. -/
theorem c7_derived_parameters_witness :
    lookupPar meijaard2007ExampleParameters "IFxx" = some 0.1405 ∧
    lookupPar meijaard2007ExampleParameters "rR" = some 0.3 ∧
    calcDerivedParams meijaard2007ExampleParameters = some
      [("IFxz", 0), ("IFzz", 0.1405), ("IRxz", 0), ("IRzz", 0.0603),
       ("xF", 1.02), ("xR", 0), ("yB", 0), ("yF", 0), ("yH", 0), ("yR", 0),
       ("zF", -(0.35 : ℚ)), ("zR", -(0.3 : ℚ))] :=
  ⟨rfl, rfl,
    c7_derived_parameters meijaard2007ExampleParameters 0.1405 0.0603 1.02
      0.35 0.3 rfl rfl rfl rfl rfl⟩

/-- **C9**: every query call (mass-center vector, center of mass, inertia
tensor, derived parameters, principal radii/angle) passes the instance
state through unchanged — the stored parameters are not mutated and no
derived value is stored — and a repeated call on the returned state gives
the same result. -/
theorem c9_queries_pure :
    (∀ (s : Meijaard2007Set ℚ) (b : String),
        (s.formMassCenterVectorCall b).1 = s ∧
        ((s.formMassCenterVectorCall b).1.formMassCenterVectorCall b).2 =
          (s.formMassCenterVectorCall b).2) ∧
    (∀ (s : Meijaard2007Set ℚ) (bs : List String),
        (s.massCenterOfCall bs).1 = s ∧
        ((s.massCenterOfCall bs).1.massCenterOfCall bs).2 =
          (s.massCenterOfCall bs).2) ∧
    (∀ (s : Meijaard2007Set ℚ) (b : String),
        (s.formInertiaTensorCall b).1 = s ∧
        ((s.formInertiaTensorCall b).1.formInertiaTensorCall b).2 =
          (s.formInertiaTensorCall b).2) ∧
    (∀ s : Meijaard2007Set ℚ,
        s.calcDerivedParamsCall.1 = s ∧
        s.calcDerivedParamsCall.1.calcDerivedParamsCall.2 =
          s.calcDerivedParamsCall.2) ∧
    (∀ (s : Meijaard2007Set ℝ) (b : String) (v : ℝ × ℝ),
        (s.planarPrincipalRadiiCall b v).1 = s ∧
        ((s.planarPrincipalRadiiCall b v).1.planarPrincipalRadiiCall b v).2 =
          (s.planarPrincipalRadiiCall b v).2) :=
  ⟨fun _ _ => ⟨rfl, rfl⟩, fun _ _ => ⟨rfl, rfl⟩, fun _ _ => ⟨rfl, rfl⟩,
   fun _ => ⟨rfl, rfl⟩, fun _ _ _ => ⟨rfl, rfl⟩⟩

/-- **C10**: the center-of-mass query is shape-inconsistent at the public
interface: a single body label yields the (3,1) column produced by the
mass-center-vector query (in fact that query's result unchanged), while
two or more labels yield a flat (3,) array — and these shapes differ. -/
theorem c10_mass_center_shape_inconsistency :
    (∀ (p : PyDict ℚ) (b : String),
        optShapeB (massCenterOf p [b]) [3, 1] = true) ∧
    (∀ (p : PyDict ℚ) (bodies : List String), 2 ≤ bodies.length →
        optShapeB (massCenterOf p bodies) [3] = true) ∧
    (∀ (p : PyDict ℚ) (b : String),
        massCenterOf p [b] = formMassCenterVector p b) ∧
    ([3, 1] : List Nat) ≠ [3] := by
  refine ⟨?_, ?_, fun p b => rfl, by decide⟩
  · intro p b
    show optShapeB (formMassCenterVector p b) [3, 1] = true
    rw [formMassCenterVector]
    cases squeezedMassCenter p b with
    | none => rfl
    | some xyz => rfl
  · intro p bodies hlen
    rw [massCenterOf, if_neg (by omega)]
    cases h1 : bodies.mapM (fun b => lookupPar p ("m" ++ b)) with
    | none => rfl
    | some ms =>
        cases h2 : bodies.mapM (fun b => squeezedMassCenter p b) with
        | none => rfl
        | some cs =>
            show optShapeB ((total_com cs ms).bind
              (fun mc => some (.vec [.num mc.2.1, .num mc.2.2.1,
                .num mc.2.2.2]))) [3] = true
            cases total_com cs ms with
            | none => rfl
            | some mc => rfl

/-- Witness for C10 at the center-of-mass example dictionary: both call
forms succeed and exhibit the two different shapes. -/
theorem c10_mass_center_shape_inconsistency_witness :
    (massCenterOf comExampleParameters ["B"]).isSome = true ∧
    (massCenterOf comExampleParameters ["B", "H"]).isSome = true ∧
    2 ≤ (["B", "H"] : List String).length ∧
    optShapeB (massCenterOf comExampleParameters ["B"]) [3, 1] = true ∧
    optShapeB (massCenterOf comExampleParameters ["B", "H"]) [3] = true := by
  refine ⟨rfl, rfl, by decide, ?_, ?_⟩
  · exact c10_mass_center_shape_inconsistency.1 comExampleParameters "B"
  · exact c10_mass_center_shape_inconsistency.2.1 comExampleParameters
      ["B", "H"] (by decide)

/-- **C8** (counterexample): a valid Benchmark-style dictionary may carry
extra (tolerated) keys `mX`, `xX`, `yX`, `zX`; then `mass_center_of` on
the label `X`, which is outside the body labels, succeeds instead of
failing. -/
theorem c8_center_of_mass_counterexample :
    meijaardKeysPresent extraLabelParameters = true ∧
    "X" ∉ meijaard2007BodyLabels ∧
    (massCenterOf extraLabelParameters ["X", "B"]).isSome = true := by
  refine ⟨by decide, by decide, rfl⟩

/-- **C8** (amended): a single-body call returns that body's mass-center
vector unchanged; a call on two or more bodies whose masses and
coordinates all resolve returns the mass-weighted average
`Σ(mᵢ·pᵢ)/Σ(mᵢ)`; an empty body set fails; and a referenced label fails
when its per-body keys are absent from the stored/derived mapping (in
particular any label outside the body labels, unless the caller supplied
that label's parameters as extra keys). -/
theorem c8_center_of_mass_amended :
    (∀ (p : PyDict ℚ) (b : String),
        massCenterOf p [b] = formMassCenterVector p b) ∧
    (∀ (p : PyDict ℚ) (bodies : List String) (ms : List ℚ)
        (cs : List (ℚ × ℚ × ℚ)),
        2 ≤ bodies.length →
        bodies.mapM (fun b => lookupPar p ("m" ++ b)) = some ms →
        bodies.mapM (fun b => squeezedMassCenter p b) = some cs →
        massCenterOf p bodies = some (.vec
          [.num ((List.zipWith (fun (c : ℚ × ℚ × ℚ) m => m * c.1) cs ms).sum /
              ms.sum),
           .num ((List.zipWith (fun (c : ℚ × ℚ × ℚ) m => m * c.2.1) cs ms).sum /
              ms.sum),
           .num ((List.zipWith (fun (c : ℚ × ℚ × ℚ) m => m * c.2.2) cs ms).sum /
              ms.sum)])) ∧
    (∀ p : PyDict ℚ, massCenterOf p [] = none) ∧
    (∀ (p : PyDict ℚ) (bodies : List String) (b : String),
        2 ≤ bodies.length → b ∈ bodies → lookupPar p ("m" ++ b) = none →
        massCenterOf p bodies = none) ∧
    (∀ (p : PyDict ℚ) (b : String), squeezedMassCenter p b = none →
        massCenterOf p [b] = none) := by
  refine ⟨fun p b => rfl, ?_, fun p => rfl, ?_, ?_⟩
  · intro p bodies ms cs hlen h1 h2
    rw [massCenterOf, if_neg (by omega), h1, h2]
    have hE : cs.isEmpty = false := by
      have hcl := mapM_option_some_length _ _ _ h2
      cases cs with
      | nil => rw [List.length_nil] at hcl; omega
      | cons c cs' => rfl
    show Option.bind (total_com cs ms)
        (fun mc => some (NDArr.vec
          [NDArr.num mc.2.1, NDArr.num mc.2.2.1, NDArr.num mc.2.2.2])) =
      some (NDArr.vec
        [NDArr.num ((List.zipWith (fun (c : ℚ × ℚ × ℚ) m => m * c.1) cs ms).sum /
            ms.sum),
         NDArr.num ((List.zipWith (fun (c : ℚ × ℚ × ℚ) m => m * c.2.1) cs ms).sum /
            ms.sum),
         NDArr.num ((List.zipWith (fun (c : ℚ × ℚ × ℚ) m => m * c.2.2) cs ms).sum /
            ms.sum)])
    rw [total_com, if_neg (by rw [hE]; exact Bool.false_ne_true)]
    rfl
  · intro p bodies b hlen hb hm
    rw [massCenterOf, if_neg (by omega),
      mapM_option_none_of_mem (fun b => lookupPar p ("m" ++ b)) bodies b hb hm]
    rfl
  · intro p b hsq
    show formMassCenterVector p b = none
    rw [formMassCenterVector, hsq]
    rfl

/-- Witness for C8 (amended) at the spec's example: unit masses at
(0, 0, 0) and (2, 0, 0). -/
theorem c8_center_of_mass_amended_witness :
    (["B", "H"] : List String).length = 2 ∧
    (["B", "H"].mapM (fun b => lookupPar comExampleParameters ("m" ++ b)) =
      some [1.0, 1.0]) ∧
    (["B", "H"].mapM (fun b => squeezedMassCenter comExampleParameters b) =
      some [(0.0, 0, 0.0), (2.0, 0, 0.0)]) ∧
    massCenterOf comExampleParameters ["B", "H"] = some (.vec
      [.num ((List.zipWith (fun (c : ℚ × ℚ × ℚ) m => m * c.1)
          [(0.0, 0, 0.0), (2.0, 0, 0.0)] [1.0, 1.0]).sum / ([1.0, 1.0] : List ℚ).sum),
       .num ((List.zipWith (fun (c : ℚ × ℚ × ℚ) m => m * c.2.1)
          [(0.0, 0, 0.0), (2.0, 0, 0.0)] [1.0, 1.0]).sum / ([1.0, 1.0] : List ℚ).sum),
       .num ((List.zipWith (fun (c : ℚ × ℚ × ℚ) m => m * c.2.2)
          [(0.0, 0, 0.0), (2.0, 0, 0.0)] [1.0, 1.0]).sum / ([1.0, 1.0] : List ℚ).sum)]) ∧
    massCenterOf comExampleParameters [] = none :=
  ⟨rfl, rfl, rfl,
    c8_center_of_mass_amended.2.1 comExampleParameters ["B", "H"]
      [1.0, 1.0] [(0.0, 0, 0.0), (2.0, 0, 0.0)] (by decide) rfl rfl,
    c8_center_of_mass_amended.2.2.1 comExampleParameters⟩

/-- **C1**: with two or more vector-valued overrides, each of the three
model entry points fails with the sweep-conflict error, for every
per-sample kernel (so before any matrix work); with at most one vector
override, no sweep-conflict error is ever raised. -/
theorem c1_sweep_conflict_gate :
    (∀ (f : PyDict ℚ → CanonicalMatrices ℚ) (p : PyDict ℚ) (ov : Overrides ℚ),
        2 ≤ (vectorOverrides ov).length →
        formReducedCanonicalMatrices f p ov = .error .sweepConflict) ∧
    (∀ (f : PyDict ℚ → CanonicalMatrices ℚ) (p : PyDict ℚ) (ov : Overrides ℚ),
        2 ≤ (vectorOverrides ov).length →
        formStateSpaceMatrices f p ov = .error .sweepConflict) ∧
    (∀ (f : PyDict ℚ → CanonicalMatrices ℚ)
        (e : (Fin 4 → Fin 4 → ℚ) → (Fin 4 → ℚ × ℚ) × (Fin 4 → Fin 4 → ℚ × ℚ))
        (p : PyDict ℚ) (ov : Overrides ℚ),
        2 ≤ (vectorOverrides ov).length →
        calcEigen f e p ov = .error .sweepConflict) ∧
    (∀ (f : PyDict ℚ → CanonicalMatrices ℚ) (p : PyDict ℚ) (ov : Overrides ℚ),
        (vectorOverrides ov).length ≤ 1 →
        formReducedCanonicalMatrices f p ov ≠ .error .sweepConflict) ∧
    (∀ (f : PyDict ℚ → CanonicalMatrices ℚ) (p : PyDict ℚ) (ov : Overrides ℚ),
        (vectorOverrides ov).length ≤ 1 →
        formStateSpaceMatrices f p ov ≠ .error .sweepConflict) ∧
    (∀ (f : PyDict ℚ → CanonicalMatrices ℚ)
        (e : (Fin 4 → Fin 4 → ℚ) → (Fin 4 → ℚ × ℚ) × (Fin 4 → Fin 4 → ℚ × ℚ))
        (p : PyDict ℚ) (ov : Overrides ℚ),
        (vectorOverrides ov).length ≤ 1 →
        calcEigen f e p ov ≠ .error .sweepConflict) := by
  refine ⟨?_, ?_, ?_, ?_, ?_, ?_⟩
  · intro f p ov h
    rw [formReducedCanonicalMatrices, sweepEval_conflict _ _ _ h]
    rfl
  · intro f p ov h
    rw [formStateSpaceMatrices, sweepEval_conflict _ _ _ h]
    rfl
  · intro f e p ov h
    rw [calcEigen, sweepEval_conflict _ _ _ h]
    rfl
  · intro f p ov h
    rw [formReducedCanonicalMatrices]
    exact except_map_ne_error _ _ _
      (sweepEval_ne_conflict _ _ _ (fun q hc => by cases hc) h)
  · intro f p ov h
    rw [formStateSpaceMatrices]
    exact except_map_ne_error _ _ _
      (sweepEval_ne_conflict _ _ _
        (fun q => except_map_ne_error _ _ _
          (stateSpacePerSample_ne_conflict f q)) h)
  · intro f e p ov h
    rw [calcEigen]
    exact except_map_ne_error _ _ _
      (sweepEval_ne_conflict _ _ _
        (fun q => except_map_ne_error _ _ _
          (stateSpacePerSample_ne_conflict f q)) h)

/-- Witness for C1 at concrete kernels, parameters and overrides: two
vector overrides trigger the sweep-conflict error on all three entry
points; one vector override never does. -/
theorem c1_sweep_conflict_gate_witness :
    2 ≤ (vectorOverrides conflictOverridesExample).length ∧
    formReducedCanonicalMatrices kernelExample modelExampleParameters
      conflictOverridesExample = .error .sweepConflict ∧
    formStateSpaceMatrices kernelExample modelExampleParameters
      conflictOverridesExample = .error .sweepConflict ∧
    calcEigen kernelExample eigenSolverExample modelExampleParameters
      conflictOverridesExample = .error .sweepConflict ∧
    (vectorOverrides singleVectorOverridesExample).length ≤ 1 ∧
    formReducedCanonicalMatrices kernelExample modelExampleParameters
      singleVectorOverridesExample ≠ .error .sweepConflict ∧
    formStateSpaceMatrices kernelExample modelExampleParameters
      singleVectorOverridesExample ≠ .error .sweepConflict ∧
    calcEigen kernelExample eigenSolverExample modelExampleParameters
      singleVectorOverridesExample ≠ .error .sweepConflict :=
  ⟨by decide,
   c1_sweep_conflict_gate.1 kernelExample modelExampleParameters
     conflictOverridesExample (by decide),
   c1_sweep_conflict_gate.2.1 kernelExample modelExampleParameters
     conflictOverridesExample (by decide),
   c1_sweep_conflict_gate.2.2.1 kernelExample eigenSolverExample
     modelExampleParameters conflictOverridesExample (by decide),
   by decide,
   c1_sweep_conflict_gate.2.2.2.1 kernelExample modelExampleParameters
     singleVectorOverridesExample (by decide),
   c1_sweep_conflict_gate.2.2.2.2.1 kernelExample modelExampleParameters
     singleVectorOverridesExample (by decide),
   c1_sweep_conflict_gate.2.2.2.2.2 kernelExample eigenSolverExample
     modelExampleParameters singleVectorOverridesExample (by decide)⟩

theorem hasShapeB_vec_map_len {α β : Type} (xs : List β) (f : β → NDArr α)
    (n : Nat) (ds : List Nat) (hn : xs.length = n)
    (hf : ∀ x ∈ xs, (f x).hasShapeB ds = true) :
    (NDArr.vec (xs.map f)).hasShapeB (n :: ds) = true := by
  subst hn
  exact hasShapeB_vec_map xs f ds hf

theorem formSS_scalar_shapes (f : PyDict ℚ → CanonicalMatrices ℚ)
    (p : PyDict ℚ) (ov : Overrides ℚ) (hv : vectorOverrides ov = []) :
    shape2Ok [4, 4] [4, 2] (formStateSpaceMatrices f p ov) = true := by
  rw [formStateSpaceMatrices, sweepEval_scalar _ _ _ hv]
  cases hss : stateSpacePerSample f (updatePars p (scalarOverrides ov)) with
  | error e => rfl
  | ok ab => simp [shape2Ok, Except.map, hasShapeB_mkMat]

theorem formSS_vector_shapes (f : PyDict ℚ → CanonicalMatrices ℚ)
    (p : PyDict ℚ) (ov : Overrides ℚ) (name : String) (xs : List ℚ)
    (hv : vectorOverrides ov = [(name, xs)]) :
    shape2Ok [xs.length, 4, 4] [xs.length, 4, 2]
      (formStateSpaceMatrices f p ov) = true := by
  rw [formStateSpaceMatrices, sweepEval_vector _ _ _ _ _ hv]
  cases hm : xs.mapM (fun x =>
      (stateSpacePerSample f
        (setPar (updatePars p (scalarOverrides ov)) name x)).map
        (fun ab => (mkMat 4 4 ab.1, mkMat 4 2 ab.2))) with
  | error e => rfl
  | ok ys =>
      obtain ⟨hlen, hmem⟩ := mapM_except_ok_parts _ _ _ hm
      simp only [Except.map, shape2Ok, Bool.and_eq_true]
      constructor
      · refine hasShapeB_vec_map_len ys Prod.fst xs.length [4, 4]
          (by rw [hlen]) ?_
        intro y hy
        obtain ⟨x, hx⟩ := hmem y hy
        obtain ⟨ab, _, rfl⟩ := except_map_eq_ok _ _ _ hx
        exact hasShapeB_mkMat 4 4 ab.1
      · refine hasShapeB_vec_map_len ys Prod.snd xs.length [4, 2]
          (by rw [hlen]) ?_
        intro y hy
        obtain ⟨x, hx⟩ := hmem y hy
        obtain ⟨ab, _, rfl⟩ := except_map_eq_ok _ _ _ hx
        exact hasShapeB_mkMat 4 2 ab.2

theorem calcEigen_scalar_shapes (f : PyDict ℚ → CanonicalMatrices ℚ)
    (e : (Fin 4 → Fin 4 → ℚ) → (Fin 4 → ℚ × ℚ) × (Fin 4 → Fin 4 → ℚ × ℚ))
    (p : PyDict ℚ) (ov : Overrides ℚ) (hv : vectorOverrides ov = []) :
    shape2Ok [4] [4, 4] (calcEigen f e p ov) = true := by
  rw [calcEigen, sweepEval_scalar _ _ _ hv]
  cases hss : stateSpacePerSample f (updatePars p (scalarOverrides ov)) with
  | error err => rfl
  | ok ab => simp [shape2Ok, Except.map, hasShapeB_mkMat, hasShapeB_mkVec]

theorem calcEigen_vector_shapes (f : PyDict ℚ → CanonicalMatrices ℚ)
    (e : (Fin 4 → Fin 4 → ℚ) → (Fin 4 → ℚ × ℚ) × (Fin 4 → Fin 4 → ℚ × ℚ))
    (p : PyDict ℚ) (ov : Overrides ℚ) (name : String) (xs : List ℚ)
    (hv : vectorOverrides ov = [(name, xs)]) :
    shape2Ok [xs.length, 4] [xs.length, 4, 4] (calcEigen f e p ov) = true := by
  rw [calcEigen, sweepEval_vector _ _ _ _ _ hv]
  cases hm : xs.mapM (fun x =>
      (stateSpacePerSample f
        (setPar (updatePars p (scalarOverrides ov)) name x)).map
        (fun ab => (mkVec 4 (e ab.1).1, mkMat 4 4 (e ab.1).2))) with
  | error err => rfl
  | ok ys =>
      obtain ⟨hlen, hmem⟩ := mapM_except_ok_parts _ _ _ hm
      simp only [Except.map, shape2Ok, Bool.and_eq_true]
      constructor
      · refine hasShapeB_vec_map_len ys Prod.fst xs.length [4]
          (by rw [hlen]) ?_
        intro y hy
        obtain ⟨x, hx⟩ := hmem y hy
        obtain ⟨ab, _, rfl⟩ := except_map_eq_ok _ _ _ hx
        exact hasShapeB_mkVec 4 (e ab.1).1
      · refine hasShapeB_vec_map_len ys Prod.snd xs.length [4, 4]
          (by rw [hlen]) ?_
        intro y hy
        obtain ⟨x, hx⟩ := hmem y hy
        obtain ⟨ab, _, rfl⟩ := except_map_eq_ok _ _ _ hx
        exact hasShapeB_mkMat 4 4 (e ab.1).2

/-- **C6**: with no vector override, the canonical call succeeds with four
(2,2) matrices, the state-space call returns A:(4,4), B:(4,2) and the
eigen call returns evals:(4,), evecs:(4,4) (whenever they return); with
exactly one vector override of length n, the canonical call succeeds with
four (n,2,2) batches, the state-space shapes are (n,4,4)/(n,4,2), the
eigen shapes (n,4)/(n,4,4), and the batch is the per-sample computation
mapped over the swept vector in its order. -/
theorem c6_model_result_shapes :
    (∀ (f : PyDict ℚ → CanonicalMatrices ℚ) (p : PyDict ℚ) (ov : Overrides ℚ),
        vectorOverrides ov = [] →
          isOkE (formReducedCanonicalMatrices f p ov) = true ∧
          shape4Ok [2, 2] (formReducedCanonicalMatrices f p ov) = true) ∧
    (∀ (f : PyDict ℚ → CanonicalMatrices ℚ) (p : PyDict ℚ) (ov : Overrides ℚ),
        vectorOverrides ov = [] →
          shape2Ok [4, 4] [4, 2] (formStateSpaceMatrices f p ov) = true) ∧
    (∀ (f : PyDict ℚ → CanonicalMatrices ℚ)
        (e : (Fin 4 → Fin 4 → ℚ) → (Fin 4 → ℚ × ℚ) × (Fin 4 → Fin 4 → ℚ × ℚ))
        (p : PyDict ℚ) (ov : Overrides ℚ),
        vectorOverrides ov = [] →
          shape2Ok [4] [4, 4] (calcEigen f e p ov) = true) ∧
    (∀ (f : PyDict ℚ → CanonicalMatrices ℚ) (p : PyDict ℚ) (ov : Overrides ℚ)
        (name : String) (xs : List ℚ),
        vectorOverrides ov = [(name, xs)] →
          isOkE (formReducedCanonicalMatrices f p ov) = true ∧
          shape4Ok [xs.length, 2, 2] (formReducedCanonicalMatrices f p ov) = true) ∧
    (∀ (f : PyDict ℚ → CanonicalMatrices ℚ) (p : PyDict ℚ) (ov : Overrides ℚ)
        (name : String) (xs : List ℚ),
        vectorOverrides ov = [(name, xs)] →
          shape2Ok [xs.length, 4, 4] [xs.length, 4, 2]
            (formStateSpaceMatrices f p ov) = true) ∧
    (∀ (f : PyDict ℚ → CanonicalMatrices ℚ)
        (e : (Fin 4 → Fin 4 → ℚ) → (Fin 4 → ℚ × ℚ) × (Fin 4 → Fin 4 → ℚ × ℚ))
        (p : PyDict ℚ) (ov : Overrides ℚ) (name : String) (xs : List ℚ),
        vectorOverrides ov = [(name, xs)] →
          shape2Ok [xs.length, 4] [xs.length, 4, 4] (calcEigen f e p ov) = true) ∧
    (∀ (β : Type) (g : PyDict ℚ → Except ModelError β) (p : PyDict ℚ)
        (ov : Overrides ℚ) (name : String) (xs : List ℚ),
        vectorOverrides ov = [(name, xs)] →
          sweepEval g p ov = (xs.mapM (fun x =>
            g (setPar (updatePars p (scalarOverrides ov)) name x))).map .inr) := by
  refine ⟨?_, formSS_scalar_shapes, calcEigen_scalar_shapes, ?_,
    formSS_vector_shapes, calcEigen_vector_shapes,
    fun β g p ov name xs hv => sweepEval_vector g p ov name xs hv⟩
  · intro f p ov hv
    rw [formReduced_scalar f p ov hv]
    exact ⟨rfl, by simp [shape4Ok, hasShapeB_mkMat]⟩
  · intro f p ov name xs hv
    rw [formReduced_vector f p ov name xs hv]
    refine ⟨rfl, ?_⟩
    simp only [shape4Ok, Bool.and_eq_true]
    refine ⟨⟨⟨?_, ?_⟩, ?_⟩, ?_⟩ <;>
      (refine hasShapeB_vec_map_len _ _ xs.length [2, 2]
        (by rw [List.length_map]) ?_
       intro c hc
       exact hasShapeB_mkMat 2 2 _)

/-- Witness for C6 at concrete kernels: a scalar-only call and a 3-sample
sweep, exercising all shape conjuncts and the ordering equation. -/
theorem c6_model_result_shapes_witness :
    vectorOverrides scalarOverridesExample = [] ∧
    vectorOverrides singleVectorOverridesExample = [("w", [0.5, 1.0, 1.5])] ∧
    isOkE (formReducedCanonicalMatrices kernelExample modelExampleParameters
      scalarOverridesExample) = true ∧
    shape4Ok [2, 2] (formReducedCanonicalMatrices kernelExample
      modelExampleParameters scalarOverridesExample) = true ∧
    shape2Ok [4, 4] [4, 2] (formStateSpaceMatrices kernelExample
      modelExampleParameters scalarOverridesExample) = true ∧
    shape2Ok [4] [4, 4] (calcEigen kernelExample eigenSolverExample
      modelExampleParameters scalarOverridesExample) = true ∧
    isOkE (formReducedCanonicalMatrices kernelExample modelExampleParameters
      singleVectorOverridesExample) = true ∧
    shape4Ok [3, 2, 2] (formReducedCanonicalMatrices kernelExample
      modelExampleParameters singleVectorOverridesExample) = true ∧
    shape2Ok [3, 4, 4] [3, 4, 2] (formStateSpaceMatrices kernelExample
      modelExampleParameters singleVectorOverridesExample) = true ∧
    shape2Ok [3, 4] [3, 4, 4] (calcEigen kernelExample eigenSolverExample
      modelExampleParameters singleVectorOverridesExample) = true ∧
    sweepEval (fun q => Except.ok (kernelExample q)) modelExampleParameters
      singleVectorOverridesExample = (([0.5, 1.0, 1.5] : List ℚ).mapM (fun x =>
        Except.ok (kernelExample (setPar (updatePars modelExampleParameters
          (scalarOverrides singleVectorOverridesExample)) "w" x)))).map .inr := by
  refine ⟨rfl, rfl, ?_, ?_, ?_, ?_, ?_, ?_, ?_, ?_, ?_⟩
  · exact (c6_model_result_shapes.1 kernelExample modelExampleParameters
      scalarOverridesExample rfl).1
  · exact (c6_model_result_shapes.1 kernelExample modelExampleParameters
      scalarOverridesExample rfl).2
  · exact c6_model_result_shapes.2.1 kernelExample modelExampleParameters
      scalarOverridesExample rfl
  · exact c6_model_result_shapes.2.2.1 kernelExample eigenSolverExample
      modelExampleParameters scalarOverridesExample rfl
  · exact (c6_model_result_shapes.2.2.2.1 kernelExample modelExampleParameters
      singleVectorOverridesExample "w" [0.5, 1.0, 1.5] rfl).1
  · exact (c6_model_result_shapes.2.2.2.1 kernelExample modelExampleParameters
      singleVectorOverridesExample "w" [0.5, 1.0, 1.5] rfl).2
  · exact c6_model_result_shapes.2.2.2.2.1 kernelExample
      modelExampleParameters singleVectorOverridesExample "w" [0.5, 1.0, 1.5] rfl
  · exact c6_model_result_shapes.2.2.2.2.2.1 kernelExample eigenSolverExample
      modelExampleParameters singleVectorOverridesExample "w" [0.5, 1.0, 1.5] rfl
  · exact c6_model_result_shapes.2.2.2.2.2.2 (CanonicalMatrices ℚ)
      (fun q => Except.ok (kernelExample q)) modelExampleParameters
      singleVectorOverridesExample "w" [0.5, 1.0, 1.5] rfl

/-- **C5**: the decomposition drops the y row/column of the planar tensor;
`eigMin`/`eigMax` are exactly the eigenvalues of the 2×2 XZ sub-tensor
(the characteristic polynomial factors through them), sorted ascending;
the returned tuple is `(√(λmax/m), √(λmin/m), √(Iyy/m), atan2(-vz, vx))`
with the z eigenvector component negated; and `kmax ≥ kmin ≥ 0`. -/
theorem c5_principal_decomposition :
    (∀ ixx ixz iyy izz : ℝ,
        deleteYRowCol !![ixx, 0, ixz; 0, iyy, 0; ixz, 0, izz] =
          !![ixx, ixz; ixz, izz]) ∧
    (∀ a b c t : ℝ,
        (!![a, b; b, c] - t • (1 : Matrix (Fin 2) (Fin 2) ℝ)).det =
          (eigMin a b c - t) * (eigMax a b c - t)) ∧
    (∀ a b c : ℝ, eigMin a b c ≤ eigMax a b c) ∧
    (∀ (T : Matrix (Fin 3) (Fin 3) ℝ) (m : ℝ) (v : ℝ × ℝ),
        principalDecomp T m v =
          (Real.sqrt (eigMax (deleteYRowCol T 0 0) (deleteYRowCol T 0 1)
              (deleteYRowCol T 1 1) / m),
           Real.sqrt (eigMin (deleteYRowCol T 0 0) (deleteYRowCol T 0 1)
              (deleteYRowCol T 1 1) / m),
           Real.sqrt (T 1 1 / m), atan2 (-v.2) v.1)) ∧
    (∀ (T : Matrix (Fin 3) (Fin 3) ℝ) (m : ℝ) (v : ℝ × ℝ),
        0 ≤ (principalDecomp T m v).2.1) ∧
    (∀ (T : Matrix (Fin 3) (Fin 3) ℝ) (m : ℝ) (v : ℝ × ℝ), 0 < m →
        (principalDecomp T m v).2.1 ≤ (principalDecomp T m v).1) ∧
    (∀ (p : PyDict ℝ) (body : String) (v : ℝ × ℝ)
        (T : Matrix (Fin 3) (Fin 3) ℝ) (ext : PyDict ℝ) (m : ℝ),
        calcDerivedParams p = some ext →
        formInertiaTensor p body = some T →
        lookupPar (updatePars p ext) ("m" ++ body) = some m →
        planarPrincipalRadiiOfGyration p body v =
          some (principalDecomp T m v)) := by
  refine ⟨deleteY_planar, charPoly_factors, eigMin_le_eigMax,
    fun T m v => rfl, fun T m v => Real.sqrt_nonneg _, ?_, ?_⟩
  · intro T m v hm
    show Real.sqrt (eigMin (deleteYRowCol T 0 0) (deleteYRowCol T 0 1)
        (deleteYRowCol T 1 1) / m) ≤
      Real.sqrt (eigMax (deleteYRowCol T 0 0) (deleteYRowCol T 0 1)
        (deleteYRowCol T 1 1) / m)
    apply Real.sqrt_le_sqrt
    apply div_le_div_of_nonneg_right (eigMin_le_eigMax _ _ _) hm.le
  · intro p body v T ext m hext hT hm
    obtain ⟨ext0, ixx, ixz, iyy, izz, hext0, hxx, hxz, hyy, hzz, hTeq⟩ :=
      formInertiaTensor_some p body T hT
    rw [hext] at hext0
    injection hext0 with hee
    subst hee
    rw [planarPrincipalRadiiOfGyration, hext]
    show Option.bind (formInertiaTensor p body) (fun T' =>
        Option.bind (lookupPar (updatePars p ext) ("m" ++ body)) (fun mm =>
          Option.bind (lookupPar (updatePars p ext) ("I" ++ body ++ "yy"))
            (fun iyy' =>
              some (Real.sqrt (eigMax (deleteYRowCol T' 0 0)
                  (deleteYRowCol T' 0 1) (deleteYRowCol T' 1 1) / mm),
                Real.sqrt (eigMin (deleteYRowCol T' 0 0)
                  (deleteYRowCol T' 0 1) (deleteYRowCol T' 1 1) / mm),
                Real.sqrt (iyy' / mm), atan2 (-v.2) v.1)))) =
      some (principalDecomp T m v)
    rw [hT, hm, hyy]
    show some _ = some (principalDecomp T m v)
    rw [principalDecomp]
    subst hTeq
    simp [Matrix.cons_val_two, Matrix.tail_cons]

/-- Witness for C5 at a concrete real-valued dictionary (frame body `B`
with tensor diag(2, 3, 1) and unit mass). -/
theorem c5_principal_decomposition_witness :
    calcDerivedParams principalExampleParameters =
      some [("IFxz", 0), ("IFzz", (1 : ℝ)), ("IRxz", 0), ("IRzz", 1),
        ("xF", 1), ("xR", 0), ("yB", 0), ("yF", 0), ("yH", 0), ("yR", 0),
        ("zF", -(1 : ℝ)), ("zR", -(1 : ℝ))] ∧
    formInertiaTensor principalExampleParameters "B" =
      some !![(2 : ℝ), 0, 0; 0, 3, 0; 0, 0, 1] ∧
    lookupPar (updatePars principalExampleParameters
      [("IFxz", 0), ("IFzz", (1 : ℝ)), ("IRxz", 0), ("IRzz", 1),
        ("xF", 1), ("xR", 0), ("yB", 0), ("yF", 0), ("yH", 0), ("yR", 0),
        ("zF", -(1 : ℝ)), ("zR", -(1 : ℝ))]) ("m" ++ "B") = some 1 ∧
    (0 : ℝ) < 1 ∧
    planarPrincipalRadiiOfGyration principalExampleParameters "B" (1, 0) =
      some (principalDecomp !![(2 : ℝ), 0, 0; 0, 3, 0; 0, 0, 1] 1 (1, 0)) ∧
    (principalDecomp !![(2 : ℝ), 0, 0; 0, 3, 0; 0, 0, 1] 1 (1, 0)).2.1 ≤
      (principalDecomp !![(2 : ℝ), 0, 0; 0, 3, 0; 0, 0, 1] 1 (1, 0)).1 := by
  refine ⟨rfl, rfl, rfl, one_pos, ?_, ?_⟩
  · exact c5_principal_decomposition.2.2.2.2.2.2 principalExampleParameters
      "B" (1, 0) _ _ 1 rfl rfl rfl
  · exact c5_principal_decomposition.2.2.2.2.2.1
      !![(2 : ℝ), 0, 0; 0, 3, 0; 0, 0, 1] 1 (1, 0) one_pos

/-- **C4**: for a well-formed symmetric planar inertia tensor (`xy = yz = 0`,
`Iyy ≥ 0`) with positive mass and positive-definite XZ sub-block,
decomposing into `(kmax, kmin, kyy, angle)` (with any unit eigenvector `v`
of the larger eigenvalue, as delivered by the solver) and reconstructing
through the converter's closed-form formulas reproduces every tensor entry
within 1e-10 absolute tolerance (here: exactly). -/
theorem c4_roundtrip_reconstruction (ixx ixz iyy izz m vx vz : ℝ)
    (hm : 0 < m) (hiyy : 0 ≤ iyy) (hxx : 0 < ixx) (hdet : ixz ^ 2 < ixx * izz)
    (hunit : vx ^ 2 + vz ^ 2 = 1)
    (heig1 : ixx * vx + ixz * vz = eigMax ixx ixz izz * vx)
    (heig2 : ixz * vx + izz * vz = eigMax ixx ixz izz * vz) :
    |reconstructIxx m
        (principalDecomp !![ixx, 0, ixz; 0, iyy, 0; ixz, 0, izz] m (vx, vz)).1
        (principalDecomp !![ixx, 0, ixz; 0, iyy, 0; ixz, 0, izz] m (vx, vz)).2.1
        (principalDecomp !![ixx, 0, ixz; 0, iyy, 0; ixz, 0, izz] m (vx, vz)).2.2.2 -
      ixx| ≤ 1e-10 ∧
    |reconstructIzz m
        (principalDecomp !![ixx, 0, ixz; 0, iyy, 0; ixz, 0, izz] m (vx, vz)).1
        (principalDecomp !![ixx, 0, ixz; 0, iyy, 0; ixz, 0, izz] m (vx, vz)).2.1
        (principalDecomp !![ixx, 0, ixz; 0, iyy, 0; ixz, 0, izz] m (vx, vz)).2.2.2 -
      izz| ≤ 1e-10 ∧
    |reconstructIxz m
        (principalDecomp !![ixx, 0, ixz; 0, iyy, 0; ixz, 0, izz] m (vx, vz)).1
        (principalDecomp !![ixx, 0, ixz; 0, iyy, 0; ixz, 0, izz] m (vx, vz)).2.1
        (principalDecomp !![ixx, 0, ixz; 0, iyy, 0; ixz, 0, izz] m (vx, vz)).2.2.2 -
      ixz| ≤ 1e-10 ∧
    |reconstructIyy m
        (principalDecomp !![ixx, 0, ixz; 0, iyy, 0; ixz, 0, izz] m (vx, vz)).2.2.1 -
      iyy| ≤ 1e-10 := by
  rw [principalDecomp_planar]
  dsimp only
  have hsum := eigMin_add_eigMax ixx ixz izz
  have hminpos := eigMin_pos ixx ixz izz hxx hdet
  have hmaxpos := eigMax_pos ixx ixz izz hxx hdet
  have hm' : m ≠ 0 := ne_of_gt hm
  have hvnz : ¬(vx = 0 ∧ -vz = 0) := by
    rintro ⟨h1, h2⟩
    rw [h1, neg_eq_zero.mp h2] at hunit
    norm_num at hunit
  have hnorm : Real.sqrt (vx ^ 2 + (-vz) ^ 2) = 1 := by
    rw [show vx ^ 2 + (-vz) ^ 2 = 1 by linear_combination hunit]
    exact Real.sqrt_one
  have hcos : Real.cos (atan2 (-vz) vx) = vx := by
    rw [cos_atan2 _ _ hvnz, hnorm, div_one]
  have hsin : Real.sin (atan2 (-vz) vx) = -vz := by
    rw [sin_atan2, hnorm, div_one]
  have hkaa : Real.sqrt (eigMax ixx ixz izz / m) ^ 2 = eigMax ixx ixz izz / m :=
    Real.sq_sqrt (div_nonneg hmaxpos.le hm.le)
  have hkbb : Real.sqrt (eigMin ixx ixz izz / m) ^ 2 = eigMin ixx ixz izz / m :=
    Real.sq_sqrt (div_nonneg hminpos.le hm.le)
  have hkyy : Real.sqrt (iyy / m) ^ 2 = iyy / m :=
    Real.sq_sqrt (div_nonneg hiyy hm.le)
  refine ⟨?_, ?_, ?_, ?_⟩
  · have hval : reconstructIxx m (Real.sqrt (eigMax ixx ixz izz / m))
        (Real.sqrt (eigMin ixx ixz izz / m)) (atan2 (-vz) vx) = ixx := by
      rw [reconstructIxx, hcos, hsin, hkaa, hkbb]
      have hA : m * (eigMax ixx ixz izz / m * vx ^ 2 +
          eigMin ixx ixz izz / m * (-vz) ^ 2) =
          eigMax ixx ixz izz * vx ^ 2 + eigMin ixx ixz izz * vz ^ 2 := by
        field_simp
      rw [hA]
      linear_combination (-vx) * heig1 + vz * heig2 + vz ^ 2 * hsum +
        ixx * hunit
    rw [hval, sub_self, abs_zero]
    norm_num
  · have hval : reconstructIzz m (Real.sqrt (eigMax ixx ixz izz / m))
        (Real.sqrt (eigMin ixx ixz izz / m)) (atan2 (-vz) vx) = izz := by
      rw [reconstructIzz, hcos, hsin, hkaa, hkbb]
      have hA : m * (eigMax ixx ixz izz / m * (-vz) ^ 2 +
          eigMin ixx ixz izz / m * vx ^ 2) =
          eigMax ixx ixz izz * vz ^ 2 + eigMin ixx ixz izz * vx ^ 2 := by
        field_simp
      rw [hA]
      linear_combination (-vz) * heig2 + vx * heig1 + vx ^ 2 * hsum +
        izz * hunit
    rw [hval, sub_self, abs_zero]
    norm_num
  · have hval : reconstructIxz m (Real.sqrt (eigMax ixx ixz izz / m))
        (Real.sqrt (eigMin ixx ixz izz / m)) (atan2 (-vz) vx) = ixz := by
      rw [reconstructIxz, hcos, hsin, hkaa, hkbb]
      have hA : m * (eigMin ixx ixz izz / m - eigMax ixx ixz izz / m) *
          (-vz) * vx =
          (eigMax ixx ixz izz - eigMin ixx ixz izz) * (vx * vz) := by
        field_simp
        ring
      rw [hA]
      linear_combination (-vz) * heig1 + (-vx) * heig2 +
        (-(vx * vz)) * hsum + ixz * hunit
    rw [hval, sub_self, abs_zero]
    norm_num
  · have hval : reconstructIyy m (Real.sqrt (iyy / m)) = iyy := by
      rw [reconstructIyy, hkyy]
      field_simp
    rw [hval, sub_self, abs_zero]
    norm_num

/-- Witness for C4 at the tensor diag(2, 3, 1) with unit mass and the unit
eigenvector (1, 0) of the larger XZ eigenvalue 2. -/
theorem c4_roundtrip_reconstruction_witness :
    (0 : ℝ) < 1 ∧ (0 : ℝ) < 2 ∧ (0 : ℝ) ^ 2 < 2 * 1 ∧
    (1 : ℝ) ^ 2 + 0 ^ 2 = 1 ∧
    (2 * 1 + 0 * 0 : ℝ) = eigMax 2 0 1 * 1 ∧
    (0 * 1 + 1 * 0 : ℝ) = eigMax 2 0 1 * 0 ∧
    (|reconstructIxx 1
        (principalDecomp !![(2 : ℝ), 0, 0; 0, 3, 0; 0, 0, 1] 1 (1, 0)).1
        (principalDecomp !![(2 : ℝ), 0, 0; 0, 3, 0; 0, 0, 1] 1 (1, 0)).2.1
        (principalDecomp !![(2 : ℝ), 0, 0; 0, 3, 0; 0, 0, 1] 1 (1, 0)).2.2.2 -
      2| ≤ 1e-10 ∧
    |reconstructIzz 1
        (principalDecomp !![(2 : ℝ), 0, 0; 0, 3, 0; 0, 0, 1] 1 (1, 0)).1
        (principalDecomp !![(2 : ℝ), 0, 0; 0, 3, 0; 0, 0, 1] 1 (1, 0)).2.1
        (principalDecomp !![(2 : ℝ), 0, 0; 0, 3, 0; 0, 0, 1] 1 (1, 0)).2.2.2 -
      1| ≤ 1e-10 ∧
    |reconstructIxz 1
        (principalDecomp !![(2 : ℝ), 0, 0; 0, 3, 0; 0, 0, 1] 1 (1, 0)).1
        (principalDecomp !![(2 : ℝ), 0, 0; 0, 3, 0; 0, 0, 1] 1 (1, 0)).2.1
        (principalDecomp !![(2 : ℝ), 0, 0; 0, 3, 0; 0, 0, 1] 1 (1, 0)).2.2.2 -
      0| ≤ 1e-10 ∧
    |reconstructIyy 1
        (principalDecomp !![(2 : ℝ), 0, 0; 0, 3, 0; 0, 0, 1] 1 (1, 0)).2.2.1 -
      3| ≤ 1e-10) := by
  have hs : ((2 : ℝ) - 1) ^ 2 + 4 * 0 ^ 2 = 1 := by norm_num
  have hmax : eigMax 2 0 1 = 2 := by
    rw [eigMax, hs, Real.sqrt_one]
    norm_num
  refine ⟨one_pos, two_pos, by norm_num, by norm_num, ?_, ?_, ?_⟩
  · rw [hmax]; norm_num
  · rw [hmax]; norm_num
  · exact c4_roundtrip_reconstruction 2 0 3 1 1 1 0 one_pos (by norm_num)
      two_pos (by norm_num) (by norm_num) (by rw [hmax]; norm_num)
      (by rw [hmax]; norm_num)

end BicycleParameters
